import Mathlib

/-!
Shallow embedding of the filtering expression engine of `filter.c`
(lexer, shunting-yard compiler, and stack-based postfix evaluator over
one variant-call record), together with theorems settling the claims
about it.

Modelling conventions, used consistently below:
* C `float` values are modelled by the inductive `FV`: exact rationals
  plus the two infinities, a generic NaN, the `bcf_float_missing`
  sentinel (`FV.miss`, a distinguished NaN bit pattern in the binary
  record format) and the `bcf_float_vector_end` sentinel (`FV.vend`).
  Arithmetic is exact rather than rounded; no claim below depends on
  rounding.
* Buffers (`values`, `pass_samples`) are Lean lists holding the
  observable buffer contents.  A read past the end of a buffer, which
  in C is an out-of-bounds or junk read, is modelled by the distinct
  outcome `EvalErr.oob`, kept separate from the `error()` aborts of the
  source, which are modelled by `EvalErr.fatal`.
* The record and header accessors (`bcf_get_format_int32`,
  `bcf_hdr_id2int`, ...) are external collaborators of `filter.c`; the
  record/header structures below expose exactly the data those
  accessors return, and the setters from `filter.c` are translated
  against them.
-/

/-- C float values: exact rationals, infinities, NaN, and the two htslib
    sentinel NaN bit patterns (missing value, vector end). -/
inductive FV : Type where
  | num (q : ℚ)
  | pinf
  | ninf
  | nan
  | miss
  | vend
deriving DecidableEq, Repr

/-- IEEE `<` on modelled floats; any NaN-like operand compares false. -/
def fcmpLT : FV → FV → Bool
  | FV.num a, FV.num b => a < b
  | FV.num _, FV.pinf => true
  | FV.ninf, FV.num _ => true
  | FV.ninf, FV.pinf => true
  | _, _ => false

/-- IEEE `==` on modelled floats; any NaN-like operand compares false. -/
def fcmpEQ : FV → FV → Bool
  | FV.num a, FV.num b => a = b
  | FV.pinf, FV.pinf => true
  | FV.ninf, FV.ninf => true
  | _, _ => false

/-- IEEE `<=`. -/
def fcmpLE (a b : FV) : Bool := fcmpLT a b || fcmpEQ a b

/-- IEEE `>`. -/
def fcmpGT (a b : FV) : Bool := fcmpLT b a

/-- IEEE `>=`. -/
def fcmpGE (a b : FV) : Bool := fcmpLE b a

/-- IEEE `!=` (true whenever `==` is false, in particular on NaN). -/
def fcmpNE (a b : FV) : Bool := !(fcmpEQ a b)

def FV.neg : FV → FV
  | FV.num q => FV.num (-q)
  | FV.pinf => FV.ninf
  | FV.ninf => FV.pinf
  | v => v

/-- IEEE addition (exact on finite values). -/
def fadd : FV → FV → FV
  | FV.num a, FV.num b => FV.num (a + b)
  | FV.num _, FV.pinf => FV.pinf
  | FV.num _, FV.ninf => FV.ninf
  | FV.pinf, FV.num _ => FV.pinf
  | FV.ninf, FV.num _ => FV.ninf
  | FV.pinf, FV.pinf => FV.pinf
  | FV.ninf, FV.ninf => FV.ninf
  | _, _ => FV.nan

/-- IEEE subtraction. -/
def fsub (a b : FV) : FV := fadd a (FV.neg b)

/-- IEEE multiplication (zero times infinity is NaN). -/
def fmul : FV → FV → FV
  | FV.num a, FV.num b => FV.num (a * b)
  | FV.num a, FV.pinf => if 0 < a then FV.pinf else if a < 0 then FV.ninf else FV.nan
  | FV.num a, FV.ninf => if 0 < a then FV.ninf else if a < 0 then FV.pinf else FV.nan
  | FV.pinf, FV.num b => if 0 < b then FV.pinf else if b < 0 then FV.ninf else FV.nan
  | FV.ninf, FV.num b => if 0 < b then FV.ninf else if b < 0 then FV.pinf else FV.nan
  | FV.pinf, FV.pinf => FV.pinf
  | FV.pinf, FV.ninf => FV.ninf
  | FV.ninf, FV.pinf => FV.ninf
  | FV.ninf, FV.ninf => FV.pinf
  | _, _ => FV.nan

/-- IEEE division (finite / 0 gives a signed infinity, 0/0 gives NaN). -/
def fdiv : FV → FV → FV
  | FV.num a, FV.num b =>
      if b = 0 then (if 0 < a then FV.pinf else if a < 0 then FV.ninf else FV.nan)
      else FV.num (a / b)
  | FV.num _, FV.pinf => FV.num 0
  | FV.num _, FV.ninf => FV.num 0
  | FV.pinf, FV.num b => if b < 0 then FV.ninf else FV.pinf
  | FV.ninf, FV.num b => if b < 0 then FV.pinf else FV.ninf
  | _, _ => FV.nan

/-- Truncating C cast `(int)` of a modelled float (toward zero); only
    ever applied to the nonnegative string-width slot `values[0]`. -/
def fvToInt : FV → Int
  | FV.num q => if q < 0 then -((-q).floor) else q.floor
  | _ => 0

-- Token type codes, exactly the TOK_* constants of the source.
def TOK_VAL : Nat := 0
def TOK_LFT : Nat := 1
def TOK_RGT : Nat := 2
def TOK_LE : Nat := 3
def TOK_LT : Nat := 4
def TOK_EQ : Nat := 5
def TOK_BT : Nat := 6
def TOK_BE : Nat := 7
def TOK_NE : Nat := 8
def TOK_OR : Nat := 9
def TOK_AND : Nat := 10
def TOK_ADD : Nat := 11
def TOK_SUB : Nat := 12
def TOK_MULT : Nat := 13
def TOK_DIV : Nat := 14
def TOK_MAX : Nat := 15
def TOK_MIN : Nat := 16
def TOK_AVG : Nat := 17
def TOK_AND_VEC : Nat := 18
def TOK_OR_VEC : Nat := 19
def TOK_FUNC : Nat := 20

/-- The operator precedence array of the source (index = token code). -/
def op_prec : List Nat := [0, 1, 1, 5, 5, 5, 5, 5, 5, 2, 3, 6, 6, 7, 7, 8, 8, 8, 3, 2]

def opPrecOf (t : Nat) : Nat := op_prec.getD t 0

-- htslib constants used by the engine.
def BCF_UN_STR : Nat := 1
def BCF_UN_FLT : Nat := 2
def BCF_UN_INFO : Nat := 4
def BCF_UN_FMT : Nat := 8
def BCF_HT_FLAG : Nat := 0
def BCF_HT_INT : Nat := 1
def BCF_HT_REAL : Nat := 2
def BCF_HT_STR : Nat := 3
def BCF_BT_INT8 : Nat := 1
def BCF_BT_INT16 : Nat := 2
def BCF_BT_INT32 : Nat := 3
def BCF_BT_FLOAT : Nat := 5
def BCF_BT_CHAR : Nat := 7
def VCF_REF : Int := 0
def VCF_SNP : Int := 1
def VCF_MNP : Int := 2
def VCF_INDEL : Int := 4
def VCF_OTHER : Int := 8
def bcf_int32_missing : Int := -2147483648
def bcf_int32_vector_end : Int := -2147483647

/-- The dynamic-dispatch setter slot of a token (`tok->setter` in the
    source is a function pointer; here a closed tag dispatched by
    `applySetter`).  The three function selectors of TOK_FUNC tokens
    live in the same slot, as in the source. -/
inductive Setter : Type where
  | qual
  | vtype
  | info
  | info_int
  | info_float
  | info_flag
  | fmt_int
  | fmt_float
  | fmt_str
  | smax
  | smin
  | savg
deriving DecidableEq, Repr

/-- `token_t` of the source: compile-time metadata plus the per-record
    mutable evaluation state. -/
structure Token : Type where
  tok_type : Nat := TOK_VAL
  key : Option (List Char) := none
  tag : Option String := none
  threshold : FV := FV.num 0
  hdr_id : Int := 0
  idx : Int := 0
  setter : Option Setter := none
  comparator : Bool := false
  values : List FV := []
  str_value : List Char := []
  is_str : Bool := false
  pass_site : Int := 0
  pass_samples : List Nat := []
  nsamples : Nat := 0
  nvalues : Nat := 0
deriving DecidableEq, Repr

/-- One INFO entry of an unpacked record (`bcf_info_t`). -/
structure InfoField : Type where
  key : Int
  btype : Nat
  len : Nat
  v1i : Int := 0
  v1f : FV := FV.num 0
  arrI : List Int := []
  arrF : List FV := []
  chars : List Char := []
deriving DecidableEq, Repr

/-- The data of one unpacked record that the setters read (the record
    interface of the engine; §6 of the spec).  FORMAT accessors return
    `none` when the tag is absent from the record. -/
structure BcfRec : Type where
  qual : FV := FV.miss
  variant_types : Int := 0
  info : List InfoField := []
  flt : List Int := []
  fmt_int : String → Option (List Int) := fun _ => none
  fmt_float : String → Option (List FV) := fun _ => none
  fmt_str : String → Option (List Char × Nat) := fun _ => none
  nsamplesRec : Nat := 0

/-- Write slot `i` of a values buffer, growing it (hts_expand) with
    unspecified fill, modelled as 0, when it is shorter. -/
def writeVal (l : List FV) (i : Nat) (v : FV) : List FV :=
  if i < l.length then l.set i v
  else (l ++ List.replicate (i + 1 - l.length) (FV.num 0)).set i v

def tagOf (tok : Token) : String := tok.tag.getD ""

/-- `filters_set_qual`. -/
def filters_set_qual (rec : BcfRec) (tok : Token) : Token :=
  if rec.qual = FV.miss then { tok with nvalues := 0 }
  else { tok with values := writeVal tok.values 0 rec.qual, nvalues := 1 }

/-- `filters_set_type`. -/
def filters_set_type (rec : BcfRec) (tok : Token) : Token :=
  { tok with values := writeVal tok.values 0 (FV.num rec.variant_types), nvalues := 1 }

/-- `filters_set_info` (scalar INFO lookup by header id). -/
def filters_set_info (rec : BcfRec) (tok : Token) : Token :=
  match rec.info.find? (fun f => f.key = tok.hdr_id) with
  | none => { tok with nvalues := 0 }
  | some inf =>
      if inf.btype = BCF_BT_CHAR then
        { tok with str_value := inf.chars,
                   values := writeVal tok.values 0 (FV.num inf.len), nvalues := 1 }
      else if inf.btype = BCF_BT_FLOAT then
        { tok with values := writeVal tok.values 0 inf.v1f, str_value := [], nvalues := 1 }
      else
        { tok with values := writeVal tok.values 0 (FV.num inf.v1i), str_value := [],
                   nvalues := 1 }

/-- Result of `bcf_get_info_value` (-1 absent, 0 missing/out of range,
    1 plus a value on success). -/
inductive GetInfoRes : Type where
  | absent
  | missing
  | value (v : FV)
deriving DecidableEq, Repr

def int_missing_of (btype : Nat) : Int :=
  if btype = BCF_BT_INT8 then -128 else if btype = BCF_BT_INT16 then -32768
  else bcf_int32_missing

def int_vend_of (btype : Nat) : Int :=
  if btype = BCF_BT_INT8 then -127 else if btype = BCF_BT_INT16 then -32767
  else bcf_int32_vector_end

/-- `bcf_get_info_value`.  The loop scans indices below `min ivec len`
    for a vector-end sentinel and then reads the element at
    `min ivec len`; a read past the stored array (possible in C when
    `ivec >= len`) yields the junk value, modelled as the missing
    sentinel.  The `exit(1)` on unknown types is modelled as missing
    (no record below uses such a type). -/
def bcf_get_info_value (rec : BcfRec) (info_id : Int) (ivec : Nat) : GetInfoRes :=
  match rec.info.find? (fun f => f.key = info_id) with
  | none => GetInfoRes.absent
  | some inf =>
      if inf.len = 1 then
        if inf.btype = BCF_BT_FLOAT then GetInfoRes.value inf.v1f
        else if inf.btype = BCF_BT_INT8 ∨ inf.btype = BCF_BT_INT16 ∨
                inf.btype = BCF_BT_INT32 then GetInfoRes.value (FV.num inf.v1i)
        else GetInfoRes.value FV.nan
      else
        let j := min ivec inf.len
        if inf.btype = BCF_BT_FLOAT then
          if (inf.arrF.take j).any (fun c => c = FV.vend) then GetInfoRes.missing
          else
            let cell := inf.arrF.getD j FV.miss
            if cell = FV.miss then GetInfoRes.missing else GetInfoRes.value cell
        else if inf.btype = BCF_BT_INT8 ∨ inf.btype = BCF_BT_INT16 ∨
                inf.btype = BCF_BT_INT32 then
          if (inf.arrI.take j).any (fun c => c = int_vend_of inf.btype) then
            GetInfoRes.missing
          else
            let cell := inf.arrI.getD j (int_missing_of inf.btype)
            if cell = int_missing_of inf.btype then GetInfoRes.missing
            else GetInfoRes.value (FV.num cell)
        else GetInfoRes.missing

/-- `filters_set_info_int`. -/
def filters_set_info_int (rec : BcfRec) (tok : Token) : Token :=
  match bcf_get_info_value rec tok.hdr_id tok.idx.toNat with
  | GetInfoRes.value v => { tok with values := writeVal tok.values 0 v, nvalues := 1 }
  | _ => { tok with nvalues := 0 }

/-- `filters_set_info_float`. -/
def filters_set_info_float (rec : BcfRec) (tok : Token) : Token :=
  match bcf_get_info_value rec tok.hdr_id tok.idx.toNat with
  | GetInfoRes.value v => { tok with values := writeVal tok.values 0 v, nvalues := 1 }
  | _ => { tok with nvalues := 0 }

/-- `filters_set_info_flag`. -/
def filters_set_info_flag (rec : BcfRec) (tok : Token) : Token :=
  match rec.info.find? (fun f => f.key = tok.hdr_id) with
  | none => { tok with values := writeVal tok.values 0 (FV.num 0), nvalues := 1 }
  | some _ => { tok with values := writeVal tok.values 0 (FV.num 1), nvalues := 1 }

/-- `filters_set_format_int`: int cells are translated to floats with
    both int sentinels mapped to the float missing sentinel; if every
    cell is a sentinel the token collapses to missing. -/
def filters_set_format_int (rec : BcfRec) (tok : Token) : Token :=
  match rec.fmt_int (tagOf tok) with
  | none => { tok with nvalues := 0, nsamples := 0 }
  | some cells =>
      let vals := cells.map (fun c =>
        if c = bcf_int32_missing ∨ c = bcf_int32_vector_end then FV.miss else FV.num c)
      let is_missing := cells.all (fun c =>
        c = bcf_int32_missing ∨ c = bcf_int32_vector_end)
      let nv := if is_missing then 0 else cells.length
      { tok with values := vals ++ tok.values.drop cells.length,
                 nvalues := nv, nsamples := nv }

/-- `filters_set_format_float`.  Note that on success the source does
    not set `nsamples` (it stays 0 from the per-record reset). -/
def filters_set_format_float (rec : BcfRec) (tok : Token) : Token :=
  match rec.fmt_float (tagOf tok) with
  | none => { tok with nvalues := 0, nsamples := 0 }
  | some cells =>
      if cells.length = 0 then { tok with nvalues := 0, nsamples := 0 }
      else { tok with values := cells ++ tok.values.drop cells.length,
                      nvalues := cells.length }

/-- `filters_set_format_string`. -/
def filters_set_format_string (rec : BcfRec) (tok : Token) : Token :=
  match rec.fmt_str (tagOf tok) with
  | none => { tok with nvalues := 0, nsamples := 0 }
  | some (chars, ndim) =>
      if ndim = 0 then { tok with nvalues := 0, nsamples := 0 }
      else { tok with str_value := chars,
                      nvalues := rec.nsamplesRec, nsamples := rec.nsamplesRec,
                      values := writeVal tok.values 0 (FV.num ndim) }

/-- `set_max`: fold the max over non-missing entries starting from
    -HUGE_VAL; the result is a scalar. -/
def set_max (tok : Token) : Token :=
  let val := (tok.values.take tok.nvalues).foldl
    (fun acc v => if v ≠ FV.miss && fcmpLT acc v then v else acc) FV.ninf
  { tok with values := writeVal tok.values 0 val, nvalues := 1, nsamples := 0 }

/-- `set_min`. -/
def set_min (tok : Token) : Token :=
  let val := (tok.values.take tok.nvalues).foldl
    (fun acc v => if v ≠ FV.miss && fcmpLT v acc then v else acc) FV.pinf
  { tok with values := writeVal tok.values 0 val, nvalues := 1, nsamples := 0 }

/-- `set_avg`.  Exactly as in the source: the sum is accumulated over
    the non-missing entries, but the counter `n` is initialised to 0
    and never incremented inside the loop, so the published value is
    `n ? val/n : 0`, i.e. always 0. -/
def set_avg (tok : Token) : Token :=
  let val := (tok.values.take tok.nvalues).foldl
    (fun acc v => if v = FV.miss then acc else fadd acc v) (FV.num 0)
  let n : Nat := 0
  { tok with values := writeVal tok.values 0
               (if n ≠ 0 then fdiv val (FV.num n) else FV.num 0),
             nvalues := 1, nsamples := 0 }

/-- Setter dispatch (`tok->setter(flt, line, tok)`); function-selector
    setters ignore the record. -/
def applySetter (s : Setter) (rec : BcfRec) (tok : Token) : Token :=
  match s with
  | Setter.qual => filters_set_qual rec tok
  | Setter.vtype => filters_set_type rec tok
  | Setter.info => filters_set_info rec tok
  | Setter.info_int => filters_set_info_int rec tok
  | Setter.info_float => filters_set_info_float rec tok
  | Setter.info_flag => filters_set_info_flag rec tok
  | Setter.fmt_int => filters_set_format_int rec tok
  | Setter.fmt_float => filters_set_format_float rec tok
  | Setter.fmt_str => filters_set_format_string rec tok
  | Setter.smax => set_max tok
  | Setter.smin => set_min tok
  | Setter.savg => set_avg tok

/-- `filters_cmp_filter`: matches the token's schema id against the
    record's filter-id list; only the id of the first argument token is
    read.  Returns the C int result (0 or 1). -/
def filters_cmp_filter (hdr_id : Int) (flt : List Int) (op_type : Nat) : Int :=
  if op_type = TOK_NE then
    if flt = [] then (if hdr_id = -1 then 0 else 1)
    else if flt.any (fun f => hdr_id = f) then 0 else 1
  else
    if flt = [] then (if hdr_id = -1 then 1 else 0)
    else if flt.any (fun f => hdr_id = f) then 1 else 0

/-- C truthiness of an int. -/
def nz (i : Int) : Bool := i != 0

/-- C truthiness of a mask byte. -/
def nzN (n : Nat) : Bool := n != 0

def b2i (b : Bool) : Int := if b then 1 else 0

def b2n (b : Bool) : Nat := if b then 1 else 0

/-- Read of a pass-samples byte (buffers always span all samples in
    compiled programs; a read past the list models a junk byte 0). -/
def maskGetD (m : List Nat) (i : Nat) : Nat := m.getD i 0

/-- `vector_logic_or`: the OR combinator of the evaluator.  Mutation of
    `atok` is modelled by returning the updated token together with the
    C return value.  Writes of `pass_samples[i]` for `i` below a loop
    bound leave the rest of the buffer unchanged, as in the source. -/
def vector_logic_or (atok btok : Token) (or_type : Nat) : Token × Int :=
  if atok.nvalues = 0 ∧ btok.nvalues = 0 then
    ({ atok with nvalues := 0, nsamples := 0 }, 0)
  else if atok.nvalues = 0 then
    let mask := (List.range btok.nsamples).map (fun i => maskGetD btok.pass_samples i)
                  ++ atok.pass_samples.drop btok.nsamples
    ({ atok with pass_samples := mask, nsamples := btok.nsamples }, btok.pass_site)
  else if btok.nvalues = 0 then (atok, atok.pass_site)
  else if atok.nsamples = 0 ∧ btok.nsamples = 0 then
    (atok, b2i (nz atok.pass_site || nz btok.pass_site))
  else if atok.nsamples = 0 then
    if or_type = TOK_OR then
      let mask := (List.range btok.nsamples).map (fun i => maskGetD btok.pass_samples i)
                    ++ atok.pass_samples.drop btok.nsamples
      let pass := (List.range btok.nsamples).any
        (fun i => nz atok.pass_site || nzN (maskGetD btok.pass_samples i))
      ({ atok with pass_samples := mask, nsamples := btok.nsamples }, b2i pass)
    else
      let mask := (List.range btok.nsamples).map
        (fun i => b2n (nz atok.pass_site || nzN (maskGetD btok.pass_samples i)))
                    ++ atok.pass_samples.drop btok.nsamples
      let pass := (List.range btok.nsamples).any
        (fun i => nz atok.pass_site || nzN (maskGetD btok.pass_samples i))
      ({ atok with pass_samples := mask, nsamples := btok.nsamples }, b2i pass)
  else if btok.nsamples = 0 then
    if or_type = TOK_OR then
      let pass := (List.range atok.nsamples).any
        (fun i => nz btok.pass_site || nzN (maskGetD atok.pass_samples i))
      (atok, b2i pass)
    else
      let mask := (List.range atok.nsamples).map
        (fun i => b2n (nzN (maskGetD atok.pass_samples i) || nz btok.pass_site))
                    ++ atok.pass_samples.drop atok.nsamples
      let pass := (List.range atok.nsamples).any
        (fun i => nzN (maskGetD atok.pass_samples i) || nz btok.pass_site)
      ({ atok with pass_samples := mask }, b2i pass)
  else
    let mask := (List.range atok.nsamples).map
      (fun i => b2n (nzN (maskGetD atok.pass_samples i) || nzN (maskGetD btok.pass_samples i)))
                  ++ atok.pass_samples.drop atok.nsamples
    let pass := (List.range atok.nsamples).any
      (fun i => nzN (maskGetD atok.pass_samples i) || nzN (maskGetD btok.pass_samples i))
    ({ atok with pass_samples := mask }, b2i pass)

/-- `vector_logic_and`: the AND combinator of the evaluator.  The
    source has a single such function, used for both `&` and `&&`; it
    takes no operator-flavor argument.  Note the last branch loops over
    `atok->nvalues`, as in the source. -/
def vector_logic_and (atok btok : Token) : Token × Int :=
  if atok.nvalues = 0 ∨ btok.nvalues = 0 then
    ({ atok with nvalues := 0, nsamples := 0 }, 0)
  else if atok.nsamples = 0 ∧ btok.nsamples = 0 then
    (atok, b2i (nz atok.pass_site && nz btok.pass_site))
  else if atok.nsamples ≠ 0 ∧ btok.nsamples ≠ 0 then
    let mask := (List.range atok.nsamples).map
      (fun i => b2n (nzN (maskGetD atok.pass_samples i) && nzN (maskGetD btok.pass_samples i)))
                  ++ atok.pass_samples.drop atok.nsamples
    let pass := (List.range atok.nsamples).any
      (fun i => nzN (maskGetD atok.pass_samples i) && nzN (maskGetD btok.pass_samples i))
    ({ atok with pass_samples := mask }, b2i pass)
  else if btok.nsamples ≠ 0 then
    let mask := (List.range btok.nsamples).map
      (fun i => b2n (nz atok.pass_site && nzN (maskGetD btok.pass_samples i)))
                  ++ atok.pass_samples.drop btok.nsamples
    let pass := (List.range btok.nsamples).any
      (fun i => nz atok.pass_site && nzN (maskGetD btok.pass_samples i))
    ({ atok with pass_samples := mask, nsamples := btok.nsamples }, b2i pass)
  else
    let mask := (List.range atok.nvalues).map
      (fun i => b2n (nzN (maskGetD atok.pass_samples i) && nz btok.pass_site))
                  ++ atok.pass_samples.drop atok.nvalues
    let pass := (List.range atok.nvalues).any
      (fun i => nzN (maskGetD atok.pass_samples i) && nz btok.pass_site)
    ({ atok with pass_samples := mask }, b2i pass)

/-- Evaluation outcomes other than a result: `fatal` models the
    `error(...)` aborts of the source; `oob` models an out-of-bounds
    (undefined) buffer access that the source performs without any
    check. -/
inductive EvalErr : Type where
  | fatal
  | oob
deriving DecidableEq, Repr

/-- Elementwise loop of VECTOR_ARITHMETICS (both scalars or both
    per-sample): first argument counts remaining iterations
    (`atok->nvalues`); missing slots are skipped without reading the
    right operand, as in the source. -/
def vecArithGo (aop : FV → FV → FV) :
    Nat → List FV → List FV → Except EvalErr (List FV × Bool)
  | 0, as, _ => Except.ok (as, false)
  | Nat.succ _, [], _ => Except.error EvalErr.oob
  | Nat.succ n, a :: as, bs =>
    if a = FV.miss then
      match vecArithGo aop n as bs.tail with
      | Except.ok (rest, hv) => Except.ok (a :: rest, hv)
      | Except.error e => Except.error e
    else
      match bs with
      | [] => Except.error EvalErr.oob
      | b :: bs' =>
        if b = FV.miss then
          match vecArithGo aop n as bs' with
          | Except.ok (rest, hv) => Except.ok (FV.miss :: rest, hv)
          | Except.error e => Except.error e
        else
          match vecArithGo aop n as bs' with
          | Except.ok (rest, _) => Except.ok (aop a b :: rest, true)
          | Except.error e => Except.error e

/-- Tail of the (scalar `atok`, vector `btok`) arithmetic loop.  The
    source reads `atok->values[0]` inside the loop after having written
    it at iteration 0, so the scalar operand used from slot 1 onwards
    is the slot-0 result `v0`, not the original scalar. -/
def svArithRest (aop : FV → FV → FV) (v0 : FV) :
    Nat → List FV → Except EvalErr (List FV × Bool)
  | 0, _ => Except.ok ([], false)
  | Nat.succ _, [] => Except.error EvalErr.oob
  | Nat.succ n, b :: bs =>
    if v0 = FV.miss ∨ b = FV.miss then
      match svArithRest aop v0 n bs with
      | Except.ok (rest, hv) => Except.ok (FV.miss :: rest, hv)
      | Except.error e => Except.error e
    else
      match svArithRest aop v0 n bs with
      | Except.ok (rest, _) => Except.ok (aop v0 b :: rest, true)
      | Except.error e => Except.error e

/-- (scalar `atok`, vector `btok`) arithmetic loop over
    `btok->nvalues` slots. -/
def svArith (aop : FV → FV → FV) (n : Nat) (a0 : FV) (bvals : List FV) :
    Except EvalErr (List FV × Bool) :=
  match n, bvals with
  | 0, _ => Except.ok ([], false)
  | Nat.succ _, [] => Except.error EvalErr.oob
  | Nat.succ m, b0 :: bs =>
    if a0 = FV.miss ∨ b0 = FV.miss then
      match svArithRest aop FV.miss m bs with
      | Except.ok (rest, hv) => Except.ok (FV.miss :: rest, hv)
      | Except.error e => Except.error e
    else
      match svArithRest aop (aop a0 b0) m bs with
      | Except.ok (rest, _) => Except.ok (aop a0 b0 :: rest, true)
      | Except.error e => Except.error e

/-- (vector `atok`, scalar `btok`) arithmetic loop over
    `atok->nvalues` slots. -/
def vsArithGo (aop : FV → FV → FV) (b0 : FV) :
    Nat → List FV → Except EvalErr (List FV × Bool)
  | 0, as => Except.ok (as, false)
  | Nat.succ _, [] => Except.error EvalErr.oob
  | Nat.succ n, a :: as =>
    if a = FV.miss ∨ b0 = FV.miss then
      match vsArithGo aop b0 n as with
      | Except.ok (rest, hv) => Except.ok (FV.miss :: rest, hv)
      | Except.error e => Except.error e
    else
      match vsArithGo aop b0 n as with
      | Except.ok (rest, _) => Except.ok (aop a b0 :: rest, true)
      | Except.error e => Except.error e

/-- VECTOR_ARITHMETICS: arithmetic over two operand tokens, mutating
    the first.  `pass_site` is not touched by arithmetic. -/
def vectorArith (aop : FV → FV → FV) (atok btok : Token) : Except EvalErr Token :=
  if atok.nvalues = 0 ∨ btok.nvalues = 0 then
    Except.ok { atok with nvalues := 0, nsamples := 0 }
  else if (atok.nsamples ≠ 0 ∧ btok.nsamples ≠ 0) ∨
          (atok.nsamples = 0 ∧ btok.nsamples = 0) then
    match vecArithGo aop atok.nvalues atok.values btok.values with
    | Except.error e => Except.error e
    | Except.ok (vals, hv) =>
        let a := { atok with values := vals }
        Except.ok (if hv then a else { a with nvalues := 0, nsamples := 0 })
  else if btok.nsamples ≠ 0 then
    match atok.values with
    | [] => Except.error EvalErr.oob
    | a0 :: _ =>
      match svArith aop btok.nvalues a0 btok.values with
      | Except.error e => Except.error e
      | Except.ok (out, hv) =>
          let a := { atok with values := out ++ atok.values.drop btok.nvalues,
                               nvalues := btok.nvalues, nsamples := btok.nsamples }
          Except.ok (if hv then a else { a with nvalues := 0, nsamples := 0 })
  else
    match btok.values with
    | [] => Except.error EvalErr.oob
    | b0 :: _ =>
      match vsArithGo aop b0 atok.nvalues atok.values with
      | Except.error e => Except.error e
      | Except.ok (vals, hv) =>
          let a := { atok with values := vals }
          Except.ok (if hv then a else { a with nvalues := 0, nsamples := 0 })

/-- Both-per-sample loop of CMP_VECTORS: iterates `atok->nsamples`
    times over both value buffers and the mask of `atok`; returns the
    updated mask, the has_values flag and the pass_site flag.  Missing
    left slots skip without reading the right buffer; any value read
    past a buffer is the unchecked out-of-bounds access of the
    source. -/
def cmpVVGo (cmp : FV → FV → Bool) :
    Nat → List FV → List FV → List Nat → Except EvalErr (List Nat × Bool × Bool)
  | 0, _, _, ms => Except.ok (ms, false, false)
  | Nat.succ _, _, _, [] => Except.error EvalErr.oob
  | Nat.succ _, [], _, _ :: _ => Except.error EvalErr.oob
  | Nat.succ n, a :: as, bs, _ :: ms =>
    if a = FV.miss then
      match cmpVVGo cmp n as bs.tail ms with
      | Except.ok (rest, hv, ps) => Except.ok (0 :: rest, hv, ps)
      | Except.error e => Except.error e
    else
      match bs with
      | [] => Except.error EvalErr.oob
      | b :: bs' =>
        if b = FV.miss then
          match cmpVVGo cmp n as bs' ms with
          | Except.ok (rest, hv, ps) => Except.ok (0 :: rest, hv, ps)
          | Except.error e => Except.error e
        else
          match cmpVVGo cmp n as bs' ms with
          | Except.ok (rest, _, ps) =>
              if cmp a b then Except.ok (1 :: rest, true, true)
              else Except.ok (0 :: rest, true, ps)
          | Except.error e => Except.error e

/-- (vector `atok`, scalar `btok`) loop of CMP_VECTORS over
    `atok->nsamples` slots (the scalar `b0` is already known to be
    non-missing). -/
def cmpVSGo (cmp : FV → FV → Bool) (b0 : FV) :
    Nat → List FV → List Nat → Except EvalErr (List Nat × Bool × Bool)
  | 0, _, ms => Except.ok (ms, false, false)
  | Nat.succ _, _, [] => Except.error EvalErr.oob
  | Nat.succ _, [], _ :: _ => Except.error EvalErr.oob
  | Nat.succ n, a :: as, _ :: ms =>
    if a = FV.miss then
      match cmpVSGo cmp b0 n as ms with
      | Except.ok (rest, hv, ps) => Except.ok (0 :: rest, hv, ps)
      | Except.error e => Except.error e
    else
      match cmpVSGo cmp b0 n as ms with
      | Except.ok (rest, _, ps) =>
          if cmp a b0 then Except.ok (1 :: rest, true, true)
          else Except.ok (0 :: rest, true, ps)
      | Except.error e => Except.error e

/-- (scalar `atok`, vector `btok`) loop of CMP_VECTORS over
    `btok->nsamples` slots, writing the mask of `atok`. -/
def cmpSVGo (cmp : FV → FV → Bool) (a0 : FV) :
    Nat → List FV → List Nat → Except EvalErr (List Nat × Bool × Bool)
  | 0, _, ms => Except.ok (ms, false, false)
  | Nat.succ _, _, [] => Except.error EvalErr.oob
  | Nat.succ _, [], _ :: _ => Except.error EvalErr.oob
  | Nat.succ n, b :: bs, _ :: ms =>
    if b = FV.miss then
      match cmpSVGo cmp a0 n bs ms with
      | Except.ok (rest, hv, ps) => Except.ok (0 :: rest, hv, ps)
      | Except.error e => Except.error e
    else
      match cmpSVGo cmp a0 n bs ms with
      | Except.ok (rest, _, ps) =>
          if cmp a0 b then Except.ok (1 :: rest, true, true)
          else Except.ok (0 :: rest, true, ps)
      | Except.error e => Except.error e

/-- CMP_VECTORS: numeric comparison of two operand tokens, mutating
    the first; returns the updated token and the `ret` flag (the C int
    0/1 modelled as Bool).  Note that the both-per-sample case has no
    length check whatsoever: differing lengths run the loop over
    `atok->nsamples` and read past the shorter buffer. -/
def cmpVectors (cmp : FV → FV → Bool) (atok btok : Token) :
    Except EvalErr (Token × Bool) :=
  if atok.nvalues = 0 ∨ btok.nvalues = 0 then
    Except.ok ({ atok with nvalues := 0, nsamples := 0 }, false)
  else if atok.nsamples ≠ 0 ∧ btok.nsamples ≠ 0 then
    match cmpVVGo cmp atok.nsamples atok.values btok.values atok.pass_samples with
    | Except.error e => Except.error e
    | Except.ok (mask, hv, ps) =>
        let a := { atok with pass_samples := mask }
        Except.ok (if hv then a else { a with nvalues := 0 }, ps)
  else if atok.nsamples ≠ 0 then
    match btok.values with
    | [] => Except.error EvalErr.oob
    | b0 :: _ =>
      if b0 = FV.miss then
        Except.ok ({ atok with nvalues := 0, nsamples := 0 }, false)
      else
        match cmpVSGo cmp b0 atok.nsamples atok.values atok.pass_samples with
        | Except.error e => Except.error e
        | Except.ok (mask, hv, ps) =>
            let a := { atok with pass_samples := mask }
            Except.ok (if hv then a else { a with nvalues := 0 }, ps)
  else if btok.nsamples ≠ 0 then
    match atok.values with
    | [] => Except.error EvalErr.oob
    | a0 :: _ =>
      if a0 = FV.miss then
        Except.ok ({ atok with nvalues := 0, nsamples := 0 }, false)
      else
        match cmpSVGo cmp a0 btok.nsamples btok.values atok.pass_samples with
        | Except.error e => Except.error e
        | Except.ok (mask, hv, ps) =>
            let a := { atok with pass_samples := mask,
                                 nvalues := btok.nvalues, nsamples := btok.nsamples }
            Except.ok (if hv then a else { a with nvalues := 0 }, ps)
  else
    match atok.values, btok.values with
    | a0 :: _, b0 :: _ =>
      if a0 = FV.miss ∨ b0 = FV.miss then
        Except.ok ({ atok with nvalues := 0, nsamples := 0 }, false)
      else Except.ok (atok, cmp a0 b0)
    | _, _ => Except.error EvalErr.oob

def nulChar : Char := Char.ofNat 0

/-- Byte read from a packed string region; a read past the modelled
    region is the surrounding record memory, modelled as NUL. -/
def charAt (s : List Char) (i : Nat) : Char := s.getD i nulChar

/-- `while (a < aend && *a) a++`: first index holding NUL, scanning at
    most the given width from `i`. -/
def scanNonNul (s : List Char) : Nat → Nat → Nat
  | 0, i => i
  | Nat.succ k, i => if charAt s i = nulChar then i else scanNonNul s k (i + 1)

/-- `while (astr < aend && !*astr) astr++` (the slot-advance loop of
    the source, which only moves over NUL bytes). -/
def scanNul (s : List Char) : Nat → Nat → Nat
  | 0, i => i
  | Nat.succ k, i => if charAt s i = nulChar then scanNul s k (i + 1) else i

/-- `strncmp(s1+o1, s2+o2, k) == 0` over NUL-free spans. -/
def spanEq (s1 s2 : List Char) : Nat → Nat → Nat → Bool
  | 0, _, _ => true
  | Nat.succ k, o1, o2 =>
      charAt s1 o1 = charAt s2 o2 && spanEq s1 s2 k (o1 + 1) (o2 + 1)

/-- Slot width of a string token (`(int)tok->values[0]`). -/
def widthOf (tok : Token) : Nat := (fvToInt (tok.values.getD 0 (FV.num 0))).toNat

/-- Equal-`nvalues` loop of `cmp_vector_strings`.  The per-slot result
    byte for unequal content is the C `strncmp` value cast to a byte,
    of unspecified nonzero magnitude; it is modelled as 1.  The
    slot-advance loops of the source only skip NUL bytes from the
    current position, so `astr`/`bstr` stay put on non-empty slots,
    exactly as in the source. -/
def cmpStrGo (logic : Nat) (sa sb : List Char) (wa wb : Nat) :
    Nat → Nat → Nat → List Nat → Except EvalErr (List Nat × Bool)
  | 0, _, _, ms => Except.ok (ms, false)
  | Nat.succ _, _, _, [] => Except.error EvalErr.oob
  | Nat.succ n, astr, bstr, _ :: ms =>
    let a := scanNonNul sa wa astr
    let b := scanNonNul sb wb bstr
    let alen := a - astr
    let blen := b - bstr
    let bit : Nat :=
      if alen ≠ blen then (if logic = TOK_EQ then 0 else 1)
      else if logic = TOK_EQ then b2n (spanEq sa sb alen astr bstr)
      else b2n (!(spanEq sa sb alen astr bstr))
    match cmpStrGo logic sa sb wa wb n (scanNul sa wa astr) (scanNul sb wb bstr) ms with
    | Except.ok (rest, ps) => Except.ok (bit :: rest, nzN bit || ps)
    | Except.error e => Except.error e

/-- Scalar-broadcast loop of `cmp_vector_strings`: the scalar span
    (`sx` from offset 0, effective length `xlen`) against each slot of
    the vector side. -/
def cmpStrBGo (logic : Nat) (sx : List Char) (xlen : Nat) (sy : List Char) (wy : Nat) :
    Nat → Nat → List Nat → Except EvalErr (List Nat × Bool)
  | 0, _, ms => Except.ok (ms, false)
  | Nat.succ _, _, [] => Except.error EvalErr.oob
  | Nat.succ n, ystr, _ :: ms =>
    let y := scanNonNul sy wy ystr
    let ylen := y - ystr
    let bit : Nat :=
      if xlen ≠ ylen then (if logic = TOK_EQ then 0 else 1)
      else if logic = TOK_EQ then b2n (spanEq sx sy xlen 0 ystr)
      else b2n (!(spanEq sx sy xlen 0 ystr))
    match cmpStrBGo logic sx xlen sy wy n (scanNul sy wy ystr) ms with
    | Except.ok (rest, ps) => Except.ok (bit :: rest, nzN bit || ps)
    | Except.error e => Except.error e

/-- `cmp_vector_strings`: string comparison of two operand tokens,
    mutating the first; two per-sample vectors of differing `nvalues`
    abort with the fatal "Cannot compare vectors of different length"
    error. -/
def cmp_vector_strings (atok btok : Token) (logic : Nat) :
    Except EvalErr (Token × Bool) :=
  if atok.nvalues = 0 then Except.ok ({ atok with nsamples := 0 }, false)
  else if btok.nvalues = 0 then
    Except.ok ({ atok with nsamples := 0, nvalues := 0 }, false)
  else if atok.nvalues = btok.nvalues then
    match cmpStrGo logic atok.str_value btok.str_value (widthOf atok) (widthOf btok)
            atok.nvalues 0 0 atok.pass_samples with
    | Except.error e => Except.error e
    | Except.ok (mask, ps) =>
        let a := { atok with pass_samples := mask }
        Except.ok (if a.nsamples = 0 then { a with nsamples := btok.nsamples } else a, ps)
  else if atok.nsamples = 0 ∨ btok.nsamples = 0 then
    let xtok := if atok.nsamples = 0 then atok else btok
    let ytok := if atok.nsamples = 0 then btok else atok
    match cmpStrBGo logic xtok.str_value (scanNonNul xtok.str_value (widthOf xtok) 0)
            ytok.str_value (widthOf ytok) ytok.nvalues 0 atok.pass_samples with
    | Except.error e => Except.error e
    | Except.ok (mask, ps) =>
        let a := { atok with pass_samples := mask }
        Except.ok (if atok.nsamples = 0 then
                     { a with nvalues := btok.nsamples, nsamples := btok.nsamples }
                   else a, ps)
  else Except.error EvalErr.fatal

/-- Per-record reset of a program token (`filter_test` loop head). -/
def resetTok (t : Token) : Token := { t with nsamples := 0, nvalues := 0, pass_site := -1 }

/-- Comparison tail of the binary-operator dispatch of `filter_test`:
    the missing-operand check, the `==`/`!=` cases (comparator, string,
    numeric), the string-mix guard, the four ordering comparators, and
    the final unexpected-operator abort.  `ty` is the program token's
    type. -/
def evalCompare (rec : BcfRec) (ty : Nat) (btok atok : Token) (rest : List Token) :
    Except EvalErr (List Token) :=
  let is_str : Nat := (if btok.is_str then 1 else 0) + (if atok.is_str then 1 else 0)
  if btok.nvalues = 0 ∨ atok.nvalues = 0 then
    Except.ok ({ atok with nvalues := 0, nsamples := 0, pass_site := 0 } :: rest)
  else if ty = TOK_EQ then
    if btok.comparator then
      Except.ok ({ atok with
        pass_site := filters_cmp_filter btok.hdr_id rec.flt TOK_EQ } :: rest)
    else if atok.comparator then
      Except.ok ({ atok with
        pass_site := filters_cmp_filter atok.hdr_id rec.flt TOK_EQ } :: rest)
    else if is_str = 2 then
      match cmp_vector_strings atok btok TOK_EQ with
      | Except.ok (a, r) => Except.ok ({ a with pass_site := b2i r } :: rest)
      | Except.error e => Except.error e
    else if is_str = 1 then Except.error EvalErr.fatal
    else
      match cmpVectors fcmpEQ atok btok with
      | Except.ok (a, r) => Except.ok ({ a with pass_site := b2i r } :: rest)
      | Except.error e => Except.error e
  else if ty = TOK_NE then
    if btok.comparator then
      Except.ok ({ atok with
        pass_site := filters_cmp_filter btok.hdr_id rec.flt TOK_NE } :: rest)
    else if atok.comparator then
      Except.ok ({ atok with
        pass_site := filters_cmp_filter atok.hdr_id rec.flt TOK_NE } :: rest)
    else if is_str = 2 then
      match cmp_vector_strings atok btok TOK_NE with
      | Except.ok (a, r) => Except.ok ({ a with pass_site := b2i r } :: rest)
      | Except.error e => Except.error e
    else if is_str = 1 then Except.error EvalErr.fatal
    else
      match cmpVectors fcmpNE atok btok with
      | Except.ok (a, r) => Except.ok ({ a with pass_site := b2i r } :: rest)
      | Except.error e => Except.error e
  else if 0 < is_str then Except.error EvalErr.fatal
  else if ty = TOK_LE then
    match cmpVectors fcmpLE atok btok with
    | Except.ok (a, r) => Except.ok ({ a with pass_site := b2i r } :: rest)
    | Except.error e => Except.error e
  else if ty = TOK_LT then
    match cmpVectors fcmpLT atok btok with
    | Except.ok (a, r) => Except.ok ({ a with pass_site := b2i r } :: rest)
    | Except.error e => Except.error e
  else if ty = TOK_BT then
    match cmpVectors fcmpGT atok btok with
    | Except.ok (a, r) => Except.ok ({ a with pass_site := b2i r } :: rest)
    | Except.error e => Except.error e
  else if ty = TOK_BE then
    match cmpVectors fcmpGE atok btok with
    | Except.ok (a, r) => Except.ok ({ a with pass_site := b2i r } :: rest)
    | Except.error e => Except.error e
  else Except.error EvalErr.fatal

/-- Binary-operator dispatch of `filter_test` over the two stack-top
    operands (`btok` above `atok`): the OR and AND flavors (both AND
    flavors call the same flavor-blind combinator), the four arithmetic
    operators, then the comparison tail. -/
def evalBinary (rec : BcfRec) (ty : Nat) (btok atok : Token) (rest : List Token) :
    Except EvalErr (List Token) :=
  if ty = TOK_OR ∨ ty = TOK_OR_VEC then
    if btok.pass_site < 0 ∨ atok.pass_site < 0 then Except.error EvalErr.fatal
    else
      let r := vector_logic_or atok btok ty
      Except.ok ({ r.1 with pass_site := r.2 } :: rest)
  else if ty = TOK_AND ∨ ty = TOK_AND_VEC then
    if btok.pass_site < 0 ∨ atok.pass_site < 0 then Except.error EvalErr.fatal
    else
      let r := vector_logic_and atok btok
      Except.ok ({ r.1 with pass_site := r.2 } :: rest)
  else if ty = TOK_ADD then
    match vectorArith fadd atok btok with
    | Except.ok a => Except.ok (a :: rest)
    | Except.error e => Except.error e
  else if ty = TOK_SUB then
    match vectorArith fsub atok btok with
    | Except.ok a => Except.ok (a :: rest)
    | Except.error e => Except.error e
  else if ty = TOK_MULT then
    match vectorArith fmul atok btok with
    | Except.ok a => Except.ok (a :: rest)
    | Except.error e => Except.error e
  else if ty = TOK_DIV then
    match vectorArith fdiv atok btok with
    | Except.ok a => Except.ok (a :: rest)
    | Except.error e => Except.error e
  else evalCompare rec ty btok atok rest

/-- One iteration of the `filter_test` evaluation loop for one program
    token against the current stack (stack head = `flt_stack[nstack-1]`).
    Binary operators first check `nstack < 2` and abort fatally; the
    TOK_FUNC branch performs no such check and its access to
    `flt_stack[nstack-1]` on an empty stack is the out-of-bounds read
    of the source.  A TOK_FUNC token always carries a setter in
    compiled programs; calling the NULL pointer otherwise is modelled
    as `oob`. -/
def evalStep (rec : BcfRec) (ptok : Token) (stack : List Token) :
    Except EvalErr (List Token) :=
  let tok := resetTok ptok
  if tok.tok_type = TOK_VAL then
    match tok.setter with
    | some s => Except.ok (applySetter s rec tok :: stack)
    | none =>
      match tok.key with
      | some k => Except.ok ({ tok with str_value := k, nvalues := 1 } :: stack)
      | none =>
          Except.ok ({ tok with values := writeVal tok.values 0 tok.threshold,
                                nvalues := 1 } :: stack)
  else if tok.tok_type = TOK_FUNC then
    match stack with
    | [] => Except.error EvalErr.oob
    | top :: rest =>
      match tok.setter with
      | some s => Except.ok (applySetter s rec top :: rest)
      | none => Except.error EvalErr.oob
  else
    match stack with
    | btok :: atok :: rest => evalBinary rec tok.tok_type btok atok rest
    | _ => Except.error EvalErr.fatal

/-- The evaluation loop over the postfix program. -/
def evalProg (rec : BcfRec) : List Token → List Token → Except EvalErr (List Token)
  | [], st => Except.ok st
  | t :: ts, st =>
    match evalStep rec t st with
    | Except.ok st' => evalProg rec ts st'
    | Except.error e => Except.error e

/-- `filter_t`: the compiled program plus the per-sample count
    (`bcf_hdr_nsamples` if the expression references FORMAT fields,
    else 0) and the record-unpack mask. -/
structure CompiledFilter : Type where
  nsamples : Nat := 0
  max_unpack : Nat := BCF_UN_STR
  prog : List Token := []
deriving DecidableEq, Repr

/-- The observable outcome of `filter_test`: the returned site value
    and the per-sample mask published through the `samples` out
    pointer (`none` models the NULL pointer). -/
structure FilterRes : Type where
  site : Int
  mask : Option (List Nat)
deriving DecidableEq, Repr

instance {e a : Type} [DecidableEq e] [DecidableEq a] : DecidableEq (Except e a) :=
  fun x y =>
    match x, y with
    | Except.ok u, Except.ok v =>
        if h : u = v then isTrue (by rw [h]) else isFalse (fun hc => h (Except.ok.inj hc))
    | Except.error u, Except.error v =>
        if h : u = v then isTrue (by rw [h]) else isFalse (fun hc => h (Except.error.inj hc))
    | Except.ok _, Except.error _ => isFalse (fun hc => Except.noConfusion hc)
    | Except.error _, Except.ok _ => isFalse (fun hc => Except.noConfusion hc)

/-- C cast of an int to `uint8_t`. -/
def byteOfInt (i : Int) : Nat := (i % 256).toNat

/-- `filter_test`: run the program on one record; extract the site bit
    of the remaining stack top and the per-sample mask, synthesised by
    broadcasting the site bit when the top token is site-level.  More
    than one leftover value is the fatal `(2:nstack)` abort; an empty
    program leaves `flt_stack[0]` unwritten and its read is
    out-of-bounds. -/
def filter_test (f : CompiledFilter) (rec : BcfRec) : Except EvalErr FilterRes :=
  match evalProg rec f.prog [] with
  | Except.error e => Except.error e
  | Except.ok st =>
    if 1 < st.length then Except.error EvalErr.fatal
    else
      match st with
      | [] => Except.error EvalErr.oob
      | top :: _ =>
        let mask :=
          if f.max_unpack &&& BCF_UN_FMT ≠ 0 ∧ f.nsamples ≠ 0 then
            some (if top.nsamples = 0 then
                    List.replicate f.nsamples (byteOfInt top.pass_site)
                  else top.pass_samples)
          else none
        Except.ok ⟨top.pass_site, mask⟩

/-- `isspace` of the C locale. -/
def isSpaceC (c : Char) : Bool :=
  c = ' ' || c = '\t' || c = '\n' || c = '\x0b' || c = '\x0c' || c = '\r'

def digitsVal (ds : List Char) : Nat :=
  ds.foldl (fun acc d => 10 * acc + (d.toNat - 48)) 0

/-- Exponent part of a decimal literal: optional sign then at least one
    digit; result is the exponent and the consumed length (sign
    included, marker excluded). -/
def parseExpPart (s : List Char) : Option (Int × Nat) :=
  match s with
  | '+' :: rest =>
      let ds := rest.takeWhile Char.isDigit
      if ds = [] then none else some ((digitsVal ds : Int), ds.length + 1)
  | '-' :: rest =>
      let ds := rest.takeWhile Char.isDigit
      if ds = [] then none else some (-(digitsVal ds : Int), ds.length + 1)
  | _ =>
      let ds := s.takeWhile Char.isDigit
      if ds = [] then none else some ((digitsVal ds : Int), ds.length)

/-- Decimal `strtod`: `[digits][.digits][e|E[+|-]digits]`, returning
    the value and the consumed length; `none` when nothing parses.
    (Hexadecimal, infinity and NaN spellings, and range errors of the
    C function are not reachable from the call sites modelled here.) -/
def parseFloat (s : List Char) : Option (ℚ × Nat) :=
  let d1 := s.takeWhile Char.isDigit
  let r1 := s.drop d1.length
  let hasDot := r1.head? = some '.'
  let d2 := if hasDot then (r1.drop 1).takeWhile Char.isDigit else []
  if d1 = [] ∧ d2 = [] then none
  else
    let mlen := d1.length + (if hasDot then 1 + d2.length else 0)
    let r2 := s.drop mlen
    let mant : ℚ := (digitsVal d1 : ℚ) + (digitsVal d2 : ℚ) / ((10 : ℚ) ^ d2.length)
    match r2 with
    | 'e' :: rest =>
        match parseExpPart rest with
        | some (e, elen) => some (mant * (10 : ℚ) ^ e, mlen + 1 + elen)
        | none => some (mant, mlen)
    | 'E' :: rest =>
        match parseExpPart rest with
        | some (e, elen) => some (mant * (10 : ℚ) ^ e, mlen + 1 + elen)
        | none => some (mant, mlen)
    | _ => some (mant, mlen)

/-- `atoi`. -/
def parseAtoi (s : List Char) : Int :=
  let s := s.dropWhile (fun c => isSpaceC c)
  match s with
  | '-' :: rest => -(digitsVal (rest.takeWhile Char.isDigit) : Int)
  | '+' :: rest => (digitsVal (rest.takeWhile Char.isDigit) : Int)
  | _ => (digitsVal (s.takeWhile Char.isDigit) : Int)

/-- `strncmp(s, pat, n) == 0`, with the end of a list standing for the
    terminating NUL of the C string. -/
def cstrncmpZ : List Char → List Char → Nat → Bool
  | _, _, 0 => true
  | [], [], Nat.succ _ => true
  | [], _ :: _, Nat.succ _ => false
  | _ :: _, [], Nat.succ _ => false
  | a :: as, b :: bs, Nat.succ k => a = b && cstrncmpZ as bs k

/-- Characters that stop the identifier scan loop of the lexer. -/
def isBreak1 (c : Char) : Bool :=
  c = '"' || c = '\'' || isSpaceC c || c = '<' || c = '>' || c = '=' || c = '!' ||
  c = '&' || c = '|' || c = '(' || c = ')' || c = '+' || c = '*' || c = '-' || c = '/'

/-- Characters that stop the final catch-all scan loop of the lexer
    (note: no quotes and no `!`). -/
def isBreak2 (c : Char) : Bool :=
  isSpaceC c || c = '<' || c = '>' || c = '=' || c = '&' || c = '|' || c = '(' ||
  c = ')' || c = '+' || c = '-' || c = '*' || c = '/'

/-- `filters_next_token`: returns the token code, the lexeme length
    (for TOK_VAL) and the advanced cursor; `none` is the -1 return for
    an unterminated quote.  For TOK_VAL the cursor points at the lexeme
    (the caller advances it by `len`). -/
def filters_next_token (s0 : List Char) : Option (Nat × Nat × List Char) :=
  let s := s0.dropWhile (fun c => isSpaceC c)
  let numTry : Option Nat :=
    match s with
    | c :: _ =>
      if c.isDigit || c = '.' then
        match parseFloat s with
        | some (_, consumed) =>
            if consumed ≠ 0 ∧ (charAt s consumed).isAlphanum = false then some consumed
            else none
        | none => none
      else none
    | [] => none
  match numTry with
  | some len => some (TOK_VAL, len, s)
  | none =>
    if cstrncmpZ s ("%MAX(".data) 5 then some (TOK_MAX, 0, s.drop 4)
    else if cstrncmpZ s ("%MIN(".data) 5 then some (TOK_MIN, 0, s.drop 4)
    else if cstrncmpZ s ("%AVG(".data) 5 then some (TOK_AVG, 0, s.drop 4)
    else
      let t1 := if cstrncmpZ s ("INFO/".data) 5 then s.drop 5 else s
      let t2 := if cstrncmpZ t1 ("FORMAT/".data) 7 then t1.drop 7 else t1
      let t3 := if cstrncmpZ t2 ("FMT/".data) 4 then t2.drop 4 else t2
      let skipped := s.length - t3.length
      let idlen := (t3.takeWhile (fun c => !(isBreak1 c))).length
      if 0 < skipped + idlen then some (TOK_VAL, skipped + idlen, s)
      else
        match s with
        | [] => some (TOK_VAL, 0, s)
        | c :: rest =>
          if c = '"' ∨ c = '\'' then
            match rest.findIdx? (fun x => x = c) with
            | none => none
            | some j => some (TOK_VAL, j + 2, s)
          else if c = '!' ∧ rest.head? = some '=' then some (TOK_NE, 0, s.drop 2)
          else if c = '<' then
            if rest.head? = some '=' then some (TOK_LE, 0, s.drop 2)
            else some (TOK_LT, 0, s.drop 1)
          else if c = '>' then
            if rest.head? = some '=' then some (TOK_BE, 0, s.drop 2)
            else some (TOK_BT, 0, s.drop 1)
          else if c = '=' then
            if rest.head? = some '=' then some (TOK_EQ, 0, s.drop 2)
            else some (TOK_EQ, 0, s.drop 1)
          else if c = '(' then some (TOK_LFT, 0, s.drop 1)
          else if c = ')' then some (TOK_RGT, 0, s.drop 1)
          else if c = '&' ∧ rest.head? = some '&' then some (TOK_AND_VEC, 0, s.drop 2)
          else if c = '|' ∧ rest.head? = some '|' then some (TOK_OR_VEC, 0, s.drop 2)
          else if c = '&' then some (TOK_AND, 0, s.drop 1)
          else if c = '|' then some (TOK_OR, 0, s.drop 1)
          else if c = '+' then some (TOK_ADD, 0, s.drop 1)
          else if c = '-' then some (TOK_SUB, 0, s.drop 1)
          else if c = '*' then some (TOK_MULT, 0, s.drop 1)
          else if c = '/' then some (TOK_DIV, 0, s.drop 1)
          else some (TOK_VAL, (s.takeWhile (fun x => !(isBreak2 x))).length, s)

/-- One line of the header dictionary: the tag name and its INFO,
    FORMAT and FILTER header lines (type code and Number where
    applicable). -/
structure HdrEntry : Type where
  name : String
  infoTy : Option (Nat × Nat) := none
  fmtTy : Option (Nat × Nat) := none
  fltLine : Bool := false
deriving DecidableEq, Repr

/-- The header interface consumed at compile time. -/
structure BcfHdr : Type where
  ids : List HdrEntry := []
  nsamples : Nat := 0
deriving DecidableEq, Repr

/-- `bcf_hdr_id2int(hdr, BCF_DT_ID, name)`. -/
def bcf_hdr_id2int (hdr : BcfHdr) (name : String) : Int :=
  match hdr.ids.findIdx? (fun e => e.name = name) with
  | some i => (i : Int)
  | none => -1

def hdrEntry (hdr : BcfHdr) (id : Int) : Option HdrEntry :=
  if id < 0 then none else hdr.ids.get? id.toNat

/-- Tag binding of `filters_init1` after prefix resolution: header
    lookup, FORMAT/INFO dispatch, subscripted form, numeric-constant
    fallback.  Returns the bound token and the unpack bits to OR into
    the filter. -/
def bindTag (hdr : BcfHdr) (str : List Char) (len : Nat) (is_fmt : Nat) (tok : Token) :
    Except String (Token × Nat) :=
  let unpack0 := if is_fmt ≠ 0 then BCF_UN_FMT else 0
  let tmpC := str.take len
  let tmp := String.mk tmpC
  let id := bcf_hdr_id2int hdr tmp
  if 0 ≤ id then
    match hdrEntry hdr id with
    | none => Except.error "internal: id out of range"
    | some e =>
      if is_fmt ≠ 0 then
        match e.fmtTy with
        | none => Except.error "No such FORMAT field"
        | some (ty, num) =>
          if num ≠ 1 then Except.error "Arrays must be subscripted"
          else if ty = BCF_HT_INT then
            Except.ok ({ tok with setter := some Setter.fmt_int, tag := some tmp,
                                  hdr_id := id }, unpack0)
          else if ty = BCF_HT_REAL then
            Except.ok ({ tok with setter := some Setter.fmt_float, tag := some tmp,
                                  hdr_id := id }, unpack0)
          else if ty = BCF_HT_STR then
            Except.ok ({ tok with setter := some Setter.fmt_str, is_str := true,
                                  tag := some tmp, hdr_id := id }, unpack0)
          else Except.error "FIXME: unknown FORMAT type"
      else
        match e.infoTy with
        | none => Except.error "No such INFO field"
        | some (ty, num) =>
          if ty = BCF_HT_FLAG then
            Except.ok ({ tok with setter := some Setter.info_flag, tag := some tmp,
                                  hdr_id := id }, unpack0 ||| BCF_UN_INFO)
          else
            let tok := if ty = BCF_HT_STR then { tok with is_str := true } else tok
            if num ≠ 1 then Except.error "Arrays must be subscripted"
            else
              Except.ok ({ tok with setter := some Setter.info, tag := some tmp,
                                    hdr_id := id }, unpack0 ||| BCF_UN_INFO)
  else
    let bracketHit := len ≠ 0 ∧ charAt tmpC (len - 1) = ']'
    let i := (tmpC.takeWhile (fun c => c ≠ '[')).length
    let subOk : Option (HdrEntry × Int) :=
      if bracketHit then
        let id2 := bcf_hdr_id2int hdr (String.mk (tmpC.take i))
        match hdrEntry hdr id2 with
        | some e2 => some (e2, id2)
        | none => none
      else none
    match subOk with
    | some (e2, id2) =>
      let idxv := parseAtoi (tmpC.drop (i + 1))
      if is_fmt ≠ 0 then
        match e2.fmtTy with
        | none => Except.error "No such FORMAT field"
        | some (ty, num) =>
          if num ≠ 1 then Except.error "Arrays must be subscripted"
          else if ty = BCF_HT_INT then
            Except.ok ({ tok with setter := some Setter.fmt_int, hdr_id := id2,
                                  idx := idxv }, unpack0)
          else if ty = BCF_HT_REAL then
            Except.ok ({ tok with setter := some Setter.fmt_float, hdr_id := id2,
                                  idx := idxv }, unpack0)
          else if ty = BCF_HT_STR then
            Except.ok ({ tok with setter := some Setter.fmt_str, is_str := true,
                                  hdr_id := id2, idx := idxv }, unpack0)
          else Except.error "FIXME: unknown FORMAT type"
      else
        match e2.infoTy with
        | none => Except.error "No such INFO field"
        | some (ty, _) =>
          if ty = BCF_HT_INT then
            Except.ok ({ tok with setter := some Setter.info_int, hdr_id := id2,
                                  idx := idxv }, unpack0)
          else if ty = BCF_HT_REAL then
            Except.ok ({ tok with setter := some Setter.info_float, hdr_id := id2,
                                  idx := idxv }, unpack0)
          else if ty = BCF_HT_STR then
            Except.error "fixme: String vectors not supported yet"
          else Except.error "FIXME: unknown INFO type"
    | none =>
      -- strtod runs on the buffer as left by the subscript scan: when a
      -- bracketed name was split off, the terminating NUL sits at the
      -- bracket, so successful full-length parses are impossible there.
      let parseStr := if bracketHit then tmpC.take i else tmpC
      match parseFloat parseStr with
      | some (q, consumed) =>
          if consumed = len then Except.ok ({ tok with threshold := FV.num q }, unpack0)
          else Except.error "Error: the tag is not defined in the VCF header"
      | none => Except.error "Error: the tag is not defined in the VCF header"

/-- `filters_init1`: bind one TOK_VAL lexeme (`len` bytes at the head
    of `str`, which continues with the rest of the expression exactly
    as the C pointer does).  Note the source compares the `FORMAT/`
    prefix with `strncmp(str, "FORMAT/", 4)` and strips 4 bytes, which
    is modelled verbatim. -/
def filters_init1 (hdr : BcfHdr) (str : List Char) (len : Nat) (nfunc : Nat) :
    Except String (Token × Nat) :=
  let tok : Token := { tok_type := TOK_VAL, hdr_id := -1, pass_site := -1 }
  match str with
  | [] => Except.error "empty token"
  | c0 :: _ =>
    if c0 = '"' ∨ c0 = '\'' then
      if charAt str (len - 1) ≠ c0 then Except.error "TODO: unterminated string"
      else
        Except.ok ({ tok with key := some ((str.drop 1).take (len - 2)),
                              values := writeVal tok.values 0 (FV.num (len - 2)),
                              is_str := true }, 0)
    else if cstrncmpZ str ("FMT/".data) 4 || cstrncmpZ str ("FORMAT/".data) 4 then
      bindTag hdr (str.drop 4) (len - 4) 1 tok
    else if cstrncmpZ str ("INFO/".data) 5 then
      bindTag hdr (str.drop 5) (len - 5) 0 tok
    else if cstrncmpZ str ("%QUAL".data) len then
      Except.ok ({ tok with setter := some Setter.qual, tag := some "%QUAL" }, 0)
    else if cstrncmpZ str ("%TYPE".data) len then
      Except.ok ({ tok with setter := some Setter.vtype, tag := some "%TYPE" }, 0)
    else if cstrncmpZ str ("%FILTER".data) len then
      Except.ok ({ tok with comparator := true, tag := some "%FILTER" }, BCF_UN_FLT)
    else
      bindTag hdr str len (if nfunc ≠ 0 then 1 else 0) tok

/-- Pop loop of the shunting-yard operator case: pop while the new
    operator binds strictly weaker than the stack top (note the strict
    `<` of the source), emitting operator tokens and decrementing the
    function-nesting counter for popped function openers. -/
def popWhileGE (ret : Nat) : List Nat → List Token → Nat → List Nat × List Token × Nat
  | [], out, nfunc => ([], out, nfunc)
  | op :: rest, out, nfunc =>
    if opPrecOf ret < opPrecOf op then
      popWhileGE ret rest (out ++ [({ tok_type := op } : Token)])
        (if op = TOK_MAX ∨ op = TOK_MIN ∨ op = TOK_AVG then nfunc - 1 else nfunc)
    else (op :: rest, out, nfunc)

/-- Right-paren pop loop: emit operators until the matching left paren,
    which is discarded; `none` when there is no left paren. -/
def popToLft : List Nat → List Token → Option (List Nat × List Token)
  | [], _ => none
  | op :: rest, out =>
    if op = TOK_LFT then some (rest, out)
    else popToLft rest (out ++ [({ tok_type := op } : Token)])

/-- Drain of the operator stack at end of input; leftover parens are a
    parse error. -/
def drainOps : List Nat → List Token → Nat → Except String (List Token × Nat)
  | [], out, unpack => Except.ok (out, unpack)
  | op :: rest, out, unpack =>
    if op = TOK_LFT ∨ op = TOK_RGT then Except.error "Could not parse the expression"
    else drainOps rest (out ++ [({ tok_type := op } : Token)]) unpack

/-- The shunting-yard loop of `filter_init` (fuel decreases every
    iteration; every iteration of the source consumes input, so the
    fuel passed by `filter_init` never runs out). -/
def filterInitGo (hdr : BcfHdr) : Nat → List Char → List Nat → List Token →
    Option Nat → Nat → Nat → Except String (List Token × Nat)
  | 0, _, _, _, _, _, _ => Except.error "fuel exhausted"
  | Nat.succ fuel, s, ops, out, lastOp, nfunc, unpack =>
    match s with
    | [] => drainOps ops out unpack
    | _ :: _ =>
      match filters_next_token s with
      | none => Except.error "Missing quotes"
      | some (ret, len, s') =>
        if ret = TOK_LFT then
          filterInitGo hdr fuel s' (TOK_LFT :: ops) out (some ret) nfunc unpack
        else if ret = TOK_RGT then
          match popToLft ops out with
          | none => Except.error "Could not parse"
          | some (ops', out') =>
              filterInitGo hdr fuel s' ops' out' (some ret) nfunc unpack
        else if ret ≠ TOK_VAL then
          if ret = TOK_SUB ∧ lastOp ≠ some TOK_VAL ∧ lastOp ≠ some TOK_RGT then
            let out' := out ++ [({ tok_type := TOK_VAL, hdr_id := -1, pass_site := -1,
                                   threshold := FV.num (-1) } : Token)]
            filterInitGo hdr fuel s' (TOK_MULT :: ops) out' (some TOK_MULT) nfunc unpack
          else
            match popWhileGE ret ops out nfunc with
            | (ops', out', nfunc') =>
              let nfunc2 := if ret = TOK_MAX ∨ ret = TOK_MIN ∨ ret = TOK_AVG then
                              nfunc' + 1 else nfunc'
              filterInitGo hdr fuel s' (ret :: ops') out' (some ret) nfunc2 unpack
        else if len = 0 then
          match s' with
          | [] => drainOps ops out unpack
          | c :: _ =>
              if isSpaceC c then drainOps ops out unpack
              else Except.error "Could not parse the expression"
        else
          match filters_init1 hdr s' len nfunc with
          | Except.error e => Except.error e
          | Except.ok (tok, u) =>
              filterInitGo hdr fuel (s'.drop len) ops (out ++ [tok]) (some TOK_VAL)
                nfunc (unpack ||| u)

/-- The `%TYPE` literal table (case-insensitive). -/
def typeCodeOf (k : String) : Option Int :=
  let l := k.toLower
  if l = "snp" ∨ l = "snps" then some VCF_SNP
  else if l = "indel" ∨ l = "indels" then some VCF_INDEL
  else if l = "mnp" ∨ l = "mnps" then some VCF_MNP
  else if l = "other" then some VCF_OTHER
  else if l = "ref" then some VCF_REF
  else none

/-- Post-pass of `filter_init` resolving the `%TYPE`/`%FILTER` special
    forms: the string literal must sit right after the tag token, or
    right before it when the following token is `==`/`!=`.  A literal
    index of -1 (tag at position 0 followed by a comparison) is an
    out-of-bounds read in the source, modelled as an error. -/
def postPassGo (hdr : BcfHdr) : Nat → Nat → List Token → Except String (List Token)
  | 0, _, _ => Except.error "fuel exhausted"
  | Nat.succ fuel, i, out =>
    match out.get? i with
    | none => Except.ok out
    | some tok =>
      if tok.tok_type ≠ TOK_VAL then postPassGo hdr fuel (i + 1) out
      else
        match tok.tag with
        | none => postPassGo hdr fuel (i + 1) out
        | some tg =>
          if tg = "%TYPE" then
            if i + 1 = out.length then Except.error "Could not parse the expression"
            else
              match out.get? (i + 1) with
              | none => Except.error "Could not parse the expression"
              | some nxt =>
                let eqNext := nxt.tok_type = TOK_EQ ∨ nxt.tok_type = TOK_NE
                if eqNext ∧ i = 0 then Except.error "negative program index"
                else
                  let j := if eqNext then i - 1 else i + 1
                  match out.get? j with
                  | none => Except.error "Could not parse the expression"
                  | some jt =>
                    if jt.tok_type ≠ TOK_VAL ∨ jt.key = none then
                      Except.error "Could not parse the expression"
                    else
                      match typeCodeOf (String.mk (jt.key.getD [])) with
                      | none => Except.error "The type is not recognised"
                      | some code =>
                          let jt' := { jt with threshold := FV.num code, is_str := false,
                                               tag := some (String.mk (jt.key.getD [])),
                                               key := none }
                          postPassGo hdr fuel (j + 1) (out.set j jt')
          else if tg = "%FILTER" then
            if i + 1 = out.length then Except.error "Could not parse the expression"
            else
              match out.get? (i + 1) with
              | none => Except.error "Could not parse the expression"
              | some nxt =>
                let eqNext := nxt.tok_type = TOK_EQ ∨ nxt.tok_type = TOK_NE
                if eqNext ∧ i = 0 then Except.error "negative program index"
                else
                  let j := if eqNext then i - 1 else i + 1
                  match out.get? j with
                  | none => Except.error "Could not parse the expression"
                  | some jt =>
                    if jt.tok_type ≠ TOK_VAL ∨ jt.key = none then
                      Except.error "Could not parse, an unquoted string value perhaps?"
                    else
                      let keyStr := String.mk (jt.key.getD [])
                      if keyStr = "." then
                        let jt' := { jt with hdr_id := -1, tag := some keyStr,
                                             key := none }
                        let out' := (out.set j jt').set i { tok with hdr_id := -1 }
                        postPassGo hdr fuel (j + 1) out'
                      else
                        let fid := bcf_hdr_id2int hdr keyStr
                        match hdrEntry hdr fid with
                        | some fe =>
                          if ¬ fe.fltLine then
                            Except.error "The filter is not present in the VCF header"
                          else
                            let jt' := { jt with hdr_id := fid, tag := some keyStr,
                                                 key := none }
                            let out' := (out.set j jt').set i { tok with hdr_id := fid }
                            postPassGo hdr fuel (j + 1) out'
                        | none => Except.error "The filter is not present in the VCF header"
          else postPassGo hdr fuel (i + 1) out

/-- `filter_init`: lex and parse the expression into a postfix program,
    run the special-form post-pass, convert function openers into
    TOK_FUNC tokens with their selector setters, ensure every token has
    a values buffer of capacity at least 1, and allocate the all-ones
    per-sample masks when the expression references FORMAT fields. -/
def filter_init (hdr : BcfHdr) (str : String) : Except String CompiledFilter :=
  let s := str.data
  match filterInitGo hdr (s.length + 2) s [] [] none 0 BCF_UN_STR with
  | Except.error e => Except.error e
  | Except.ok (out, unpack) =>
    match postPassGo hdr (2 * out.length + 2) 0 out with
    | Except.error e => Except.error e
    | Except.ok out2 =>
      let ns := if unpack &&& BCF_UN_FMT ≠ 0 then hdr.nsamples else 0
      let prog := out2.map (fun t =>
        let t := if t.tok_type = TOK_MAX then
                   { t with setter := some Setter.smax, tok_type := TOK_FUNC }
                 else if t.tok_type = TOK_MIN then
                   { t with setter := some Setter.smin, tok_type := TOK_FUNC }
                 else if t.tok_type = TOK_AVG then
                   { t with setter := some Setter.savg, tok_type := TOK_FUNC }
                 else t
        let t := if t.values.length = 0 then { t with values := [FV.num 0] } else t
        { t with pass_samples := List.replicate ns 1 })
      Except.ok { nsamples := ns, max_unpack := unpack, prog := prog }

-- Concrete headers, records, tokens and compiled programs used by the
-- theorems below.

/-- Header with a single FORMAT integer field GQ (Number=1), two
    samples. -/
def hdrGQ : BcfHdr :=
  { ids := [{ name := "GQ", fmtTy := some (BCF_HT_INT, 1) }],
    nsamples := 2 }

/-- Record with qual 5 and GQ = [15, 8]. -/
def recGQ5 : BcfRec :=
  { qual := FV.num 5,
    fmt_int := fun t => if t = "GQ" then some [15, 8] else none,
    nsamplesRec := 2 }

/-- Record with qual 20 and GQ = [15, 8]. -/
def recGQ20 : BcfRec :=
  { qual := FV.num 20,
    fmt_int := fun t => if t = "GQ" then some [15, 8] else none,
    nsamplesRec := 2 }

/-- Header with a single INFO integer field DP (Number=1). -/
def hdrDPinfo : BcfHdr :=
  { ids := [{ name := "DP", infoTy := some (BCF_HT_INT, 1) }],
    nsamples := 0 }

/-- Header with a single FORMAT integer field DP (Number=1). -/
def hdrDPfmt : BcfHdr :=
  { ids := [{ name := "DP", fmtTy := some (BCF_HT_INT, 1) }],
    nsamples := 2 }

/-- A record carrying no data at all: qual missing, no INFO entries,
    no FORMAT fields, empty filter list. -/
def recEmpty : BcfRec := {}

def cfOrGQ : CompiledFilter :=
  (filter_init hdrGQ "%QUAL>10 | FMT/GQ>10").toOption.getD {}

def cfOrVecGQ : CompiledFilter :=
  (filter_init hdrGQ "%QUAL>10 || FMT/GQ>10").toOption.getD {}

def cfOne : CompiledFilter := (filter_init hdrDPinfo "1").toOption.getD {}

def cfOrMissing : CompiledFilter :=
  (filter_init hdrDPinfo "10>5 | DP>3").toOption.getD {}

def cfDPeqDP : CompiledFilter := (filter_init hdrDPinfo "DP=DP").toOption.getD {}

def cfFmtDP : CompiledFilter := (filter_init hdrDPfmt "FMT/DP").toOption.getD {}

def cf123 : CompiledFilter := (filter_init hdrDPinfo "1-2+3").toOption.getD {}

def cfMaxEmpty : CompiledFilter := (filter_init hdrGQ "%MAX()").toOption.getD {}

/-- Numeric per-sample token of 3 samples. -/
def tokVec3 : Token :=
  { nsamples := 3, nvalues := 3, values := [FV.num 1, FV.num 2, FV.num 3],
    pass_samples := [1, 1, 1] }

/-- Numeric per-sample token of 2 samples. -/
def tokVec2 : Token :=
  { nsamples := 2, nvalues := 2, values := [FV.num 4, FV.num 5],
    pass_samples := [1, 1] }

/-- String per-sample token of 2 samples (width 2). -/
def tokStr2 : Token :=
  { nsamples := 2, nvalues := 2, is_str := true, str_value := "abde".data,
    values := [FV.num 2], pass_samples := [1, 1] }

/-- String per-sample token of 3 samples (width 2). -/
def tokStr3 : Token :=
  { nsamples := 3, nvalues := 3, is_str := true, str_value := "abdeab".data,
    values := [FV.num 2], pass_samples := [1, 1, 1] }

/-- Operand token for `set_avg`: two non-missing values 2 and 2. -/
def tokAvg22 : Token := { values := [FV.num 2, FV.num 2], nvalues := 2 }

/-- A site-level operand (scalar, site bit 0). -/
def tokSite0 : Token :=
  { nvalues := 1, nsamples := 0, pass_site := 0, values := [FV.num 5],
    pass_samples := [1, 1] }

/-- A site-level operand (scalar, site bit 1). -/
def tokSite1 : Token :=
  { nvalues := 1, nsamples := 0, pass_site := 1, values := [FV.num 20],
    pass_samples := [1, 1] }

/-- A per-sample operand with mask [1, 0]. -/
def tokVecM10 : Token :=
  { nvalues := 2, nsamples := 2, pass_site := 1, values := [FV.num 15, FV.num 8],
    pass_samples := [1, 0] }

/-- Program transformation replacing the `&&` operator tokens by `&`
    ones (used to state that the two AND flavors are evaluated
    identically). -/
def swapAndFlavor (t : Token) : Token :=
  if t.tok_type = TOK_AND_VEC then { t with tok_type := TOK_AND } else t

/-- The site-state values that evaluation can produce: the reset value
    -1 or a boolean 0/1 written by an operator. -/
def PS3 (t : Token) : Prop :=
  t.pass_site = -1 ∨ t.pass_site = 0 ∨ t.pass_site = 1

/-- State of a token when every referenced datum is missing: empty
    value buffer counts and a site state that never passed. -/
def MissTok (t : Token) : Prop :=
  t.nvalues = 0 ∧ t.nsamples = 0 ∧ (t.pass_site = -1 ∨ t.pass_site = 0)

theorem anyIdMem (id : Int) (flt : List Int) :
    (flt.any (fun f => id = f) = true) ↔ id ∈ flt := by
  rw [List.any_eq_true]
  constructor
  · rintro ⟨x, hx, hd⟩
    rw [decide_eq_true_eq] at hd
    exact hd ▸ hx
  · intro h
    exact ⟨id, h, by simp⟩

/-- C2: the %FILTER comparator with `==` passes iff the bound id
    appears in the record's filter-id list (id = -1, the literal ".",
    passes iff the list is empty); with `!=` it passes iff the id does
    not appear (id = -1 fails on an empty list and passes on a
    non-empty one).  Header-assigned filter ids are nonnegative, hence
    the hypothesis. -/
theorem filters_cmp_filter_matches_spec (id : Int) (flt : List Int)
    (hvalid : (-1 : Int) ∉ flt) :
    (filters_cmp_filter id flt TOK_EQ = 1 ↔ (if id = -1 then flt = [] else id ∈ flt)) ∧
    (filters_cmp_filter id flt TOK_NE = 1 ↔ (if id = -1 then flt ≠ [] else id ∉ flt)) := by
  have hEQ : filters_cmp_filter id flt TOK_EQ =
      (if flt = [] then (if id = -1 then 1 else 0)
       else if flt.any (fun f => id = f) then 1 else 0) := by
    unfold filters_cmp_filter
    rw [if_neg (by decide : ¬ (TOK_EQ = TOK_NE))]
  have hNE : filters_cmp_filter id flt TOK_NE =
      (if flt = [] then (if id = -1 then 0 else 1)
       else if flt.any (fun f => id = f) then 0 else 1) := by
    unfold filters_cmp_filter
    rw [if_pos (rfl : TOK_NE = TOK_NE)]
  rw [hEQ, hNE]
  by_cases hid : id = -1
  · subst hid
    by_cases hf : flt = []
    · subst hf
      simp
    · have hany : (flt.any (fun f => (-1 : Int) = f)) = false := by
        rw [← Bool.not_eq_true, anyIdMem]
        exact hvalid
      simp [hf, hany]
  · by_cases hf : flt = []
    · subst hf
      simp [hid]
    · by_cases hmem : id ∈ flt
      · have hany : (flt.any (fun f => id = f)) = true := (anyIdMem id flt).mpr hmem
        simp [hf, hany, hid, hmem]
      · have hany : (flt.any (fun f => id = f)) = false := by
          rw [← Bool.not_eq_true, anyIdMem]
          exact hmem
        simp [hf, hany, hid, hmem]

/-- Witness for C2: the theorem applied at id 0 and filter list [0],
    and at id -1 with the same list. -/
theorem filters_cmp_filter_matches_spec_witness :
    (filters_cmp_filter 0 [0] TOK_EQ = 1 ↔
       (if (0 : Int) = -1 then ([0] : List Int) = [] else (0 : Int) ∈ [0])) ∧
    (filters_cmp_filter (-1) [0] TOK_NE = 1 ↔
       (if (-1 : Int) = -1 then ([0] : List Int) ≠ [] else (-1 : Int) ∉ [0])) :=
  ⟨(filters_cmp_filter_matches_spec 0 [0] (by decide)).1,
   (filters_cmp_filter_matches_spec (-1) [0] (by decide)).2⟩

/-- C7: `set_avg` publishes 0 even over the operand [2, 2] whose two
    non-missing values have mean 2, because its counter of non-missing
    entries is never incremented. -/
theorem set_avg_ignores_values :
    (set_avg tokAvg22).values = [FV.num 0, FV.num 2] ∧
    (set_avg tokAvg22).nvalues = 1 ∧
    FV.num 0 ≠ FV.num ((2 + 2) / 2) := by
  refine ⟨rfl, rfl, by with_unfolding_all decide⟩

/-- C5: `FMT/DP` compiles and binds the per-sample int setter, but the
    interchangeable spelling `FORMAT/DP` does not compile: the source
    strips only 4 bytes of the `FORMAT/` prefix (its `strncmp` uses
    length 4), looks up "AT/DP" and aborts. -/
theorem format_slash_binding :
    filter_init hdrDPfmt "FMT/DP" = Except.ok cfFmtDP ∧
    cfFmtDP.prog.map (fun t => (t.tok_type, t.setter, t.tag)) =
      [(TOK_VAL, some Setter.fmt_int, some "DP")] ∧
    filter_init hdrDPfmt "FORMAT/DP" =
      Except.error "Error: the tag is not defined in the VCF header" :=
  ⟨rfl, rfl, rfl⟩

/-- C6 counterexample: `1-2+3` does not compile to the postfix program
    of (1-2)+3; the compiled program is 1 2 3 + - (right-associated),
    because the shunting-yard pop condition uses strict `<` on equal
    precedences. -/
theorem equal_prec_not_left_assoc :
    filter_init hdrDPinfo "1-2+3" = Except.ok cf123 ∧
    cf123.prog.map (fun t => (t.tok_type, t.threshold)) =
      [(TOK_VAL, FV.num 1), (TOK_VAL, FV.num 2), (TOK_VAL, FV.num 3),
       (TOK_ADD, FV.num 0), (TOK_SUB, FV.num 0)] ∧
    cf123.prog.map (fun t => t.tok_type) ≠
      [TOK_VAL, TOK_VAL, TOK_SUB, TOK_VAL, TOK_ADD] := by
  refine ⟨by with_unfolding_all rfl, by with_unfolding_all rfl, by decide⟩

/-- C6 amended: the compiler implements the stated precedence table,
    but operators of equal precedence are right-associative: `1-2+3`
    compiles to the postfix program of 1-(2+3). -/
theorem op_prec_table_and_right_assoc :
    opPrecOf TOK_LFT = 1 ∧ opPrecOf TOK_RGT = 1 ∧
    opPrecOf TOK_OR = 2 ∧ opPrecOf TOK_OR_VEC = 2 ∧
    opPrecOf TOK_AND = 3 ∧ opPrecOf TOK_AND_VEC = 3 ∧
    opPrecOf TOK_LE = 5 ∧ opPrecOf TOK_LT = 5 ∧ opPrecOf TOK_EQ = 5 ∧
    opPrecOf TOK_BT = 5 ∧ opPrecOf TOK_BE = 5 ∧ opPrecOf TOK_NE = 5 ∧
    opPrecOf TOK_ADD = 6 ∧ opPrecOf TOK_SUB = 6 ∧
    opPrecOf TOK_MULT = 7 ∧ opPrecOf TOK_DIV = 7 ∧
    opPrecOf TOK_MAX = 8 ∧ opPrecOf TOK_MIN = 8 ∧ opPrecOf TOK_AVG = 8 ∧
    cf123.prog.map (fun t => (t.tok_type, t.threshold)) =
      [(TOK_VAL, FV.num 1), (TOK_VAL, FV.num 2), (TOK_VAL, FV.num 3),
       (TOK_ADD, FV.num 0), (TOK_SUB, FV.num 0)] := by
  refine ⟨rfl, rfl, rfl, rfl, rfl, rfl, rfl, rfl, rfl, rfl, rfl, rfl, rfl, rfl, rfl,
          rfl, rfl, rfl, rfl, by with_unfolding_all rfl⟩

/-- C9 counterexample: the compiled program of `%MAX()` starts with a
    function token on an empty stack; evaluation performs the
    unchecked out-of-bounds stack access instead of the fatal abort. -/
theorem func_underflow_not_fatal :
    filter_init hdrGQ "%MAX()" = Except.ok cfMaxEmpty ∧
    cfMaxEmpty.prog.map (fun t => (t.tok_type, t.setter)) =
      [(TOK_FUNC, some Setter.smax)] ∧
    filter_test cfMaxEmpty recEmpty = Except.error EvalErr.oob ∧
    (Except.error EvalErr.oob : Except EvalErr FilterRes) ≠ Except.error EvalErr.fatal := by
  refine ⟨rfl, rfl, rfl, by decide⟩

/-- C10 counterexample: numeric comparison of the 3-sample vector
    [1,2,3] against the 2-sample vector [4,5] reads past the shorter
    buffer (undefined access) instead of signalling the fatal error. -/
theorem numeric_length_mismatch_not_fatal :
    cmpVectors fcmpEQ tokVec3 tokVec2 = Except.error EvalErr.oob ∧
    (Except.error EvalErr.oob : Except EvalErr (Token × Bool)) ≠
      Except.error EvalErr.fatal := by
  refine ⟨rfl, by decide⟩


/-- C9 amended: a binary operator token reached with fewer than two
    operands on the stack aborts with the fatal error, but a function
    token performs no underflow check: on an empty stack its
    `flt_stack[nstack-1]` access is out of bounds, not a fatal abort. -/
theorem underflow_fatal_vs_func_oob (rec : BcfRec) (t : Token) (st : List Token)
    (hv : t.tok_type ≠ TOK_VAL) (hlen : st.length < 2) :
    (t.tok_type ≠ TOK_FUNC → evalStep rec t st = Except.error EvalErr.fatal) ∧
    (t.tok_type = TOK_FUNC → evalStep rec t [] = Except.error EvalErr.oob) := by
  constructor
  · intro hf
    simp only [evalStep, resetTok]
    rw [if_neg hv, if_neg hf]
    match st, hlen with
    | [], _ => rfl
    | [x], _ => rfl
    | x :: y :: tl, h => exact absurd h (by simp)
  · intro hf
    simp only [evalStep, resetTok]
    rw [if_neg hv, if_pos hf]

/-- Witness for C9 amended: an AND token over the empty stack is
    fatal; a MAX function token over the empty stack is the
    out-of-bounds access. -/
theorem underflow_fatal_vs_func_oob_witness :
    evalStep recEmpty ({ tok_type := TOK_AND } : Token) [] = Except.error EvalErr.fatal ∧
    evalStep recEmpty ({ tok_type := TOK_FUNC } : Token) [] = Except.error EvalErr.oob :=
  ⟨(underflow_fatal_vs_func_oob recEmpty { tok_type := TOK_AND } [] (by decide)
      (by decide)).1 (by decide),
   (underflow_fatal_vs_func_oob recEmpty { tok_type := TOK_FUNC } [] (by decide)
      (by decide)).2 rfl⟩

theorem cmpVVGo_not_fatal (cmp : FV → FV → Bool) :
    ∀ n as bs ms, cmpVVGo cmp n as bs ms ≠ Except.error EvalErr.fatal := by
  intro n
  induction n with
  | zero => intro as bs ms; simp [cmpVVGo]
  | succ k ih =>
    intro as bs ms
    match ms with
    | [] =>
      match as with
      | [] => simp [cmpVVGo]
      | a :: as' => simp [cmpVVGo]
    | m :: ms' =>
      match as with
      | [] => simp [cmpVVGo]
      | a :: as' =>
        simp only [cmpVVGo]
        split
        · cases hh : cmpVVGo cmp k as' bs.tail ms' with
          | ok p => obtain ⟨rest, hv, ps⟩ := p; simp [hh]
          | error e => simp only [hh]; exact hh ▸ ih as' bs.tail ms'
        · match bs with
          | [] => simp
          | b :: bs' =>
            simp only []
            split
            · cases hh : cmpVVGo cmp k as' bs' ms' with
              | ok p => obtain ⟨rest, hv, ps⟩ := p; simp [hh]
              | error e => simp only [hh]; exact hh ▸ ih as' bs' ms'
            · cases hh : cmpVVGo cmp k as' bs' ms' with
              | ok p => obtain ⟨rest, hv, ps⟩ := p; simp only [hh]; split <;> simp
              | error e => simp only [hh]; exact hh ▸ ih as' bs' ms'

theorem cmpVSGo_not_fatal (cmp : FV → FV → Bool) (b0 : FV) :
    ∀ n as ms, cmpVSGo cmp b0 n as ms ≠ Except.error EvalErr.fatal := by
  intro n
  induction n with
  | zero => intro as ms; simp [cmpVSGo]
  | succ k ih =>
    intro as ms
    match ms with
    | [] =>
      match as with
      | [] => simp [cmpVSGo]
      | a :: as' => simp [cmpVSGo]
    | m :: ms' =>
      match as with
      | [] => simp [cmpVSGo]
      | a :: as' =>
        simp only [cmpVSGo]
        split
        · cases hh : cmpVSGo cmp b0 k as' ms' with
          | ok p => obtain ⟨rest, hv, ps⟩ := p; simp [hh]
          | error e => simp only [hh]; exact hh ▸ ih as' ms'
        · cases hh : cmpVSGo cmp b0 k as' ms' with
          | ok p => obtain ⟨rest, hv, ps⟩ := p; simp only [hh]; split <;> simp
          | error e => simp only [hh]; exact hh ▸ ih as' ms'

theorem cmpSVGo_not_fatal (cmp : FV → FV → Bool) (a0 : FV) :
    ∀ n bs ms, cmpSVGo cmp a0 n bs ms ≠ Except.error EvalErr.fatal := by
  intro n
  induction n with
  | zero => intro bs ms; simp [cmpSVGo]
  | succ k ih =>
    intro bs ms
    match ms with
    | [] =>
      match bs with
      | [] => simp [cmpSVGo]
      | b :: bs' => simp [cmpSVGo]
    | m :: ms' =>
      match bs with
      | [] => simp [cmpSVGo]
      | b :: bs' =>
        simp only [cmpSVGo]
        split
        · cases hh : cmpSVGo cmp a0 k bs' ms' with
          | ok p => obtain ⟨rest, hv, ps⟩ := p; simp [hh]
          | error e => simp only [hh]; exact hh ▸ ih bs' ms'
        · cases hh : cmpSVGo cmp a0 k bs' ms' with
          | ok p => obtain ⟨rest, hv, ps⟩ := p; simp only [hh]; split <;> simp
          | error e => simp only [hh]; exact hh ▸ ih bs' ms'

/-- The numeric comparison kernel contains no fatal abort at all: its
    only non-result outcome is the unchecked out-of-bounds access. -/
theorem cmpVectors_never_fatal (cmp : FV → FV → Bool) (a b : Token) :
    cmpVectors cmp a b ≠ Except.error EvalErr.fatal := by
  unfold cmpVectors
  split
  · simp
  · split
    · cases hh : cmpVVGo cmp a.nsamples a.values b.values a.pass_samples with
      | ok p => obtain ⟨m, hv, ps⟩ := p; simp only [hh]; split <;> simp
      | error e =>
          simp only [hh]
          exact fun hc => cmpVVGo_not_fatal cmp _ _ _ _ (Except.error.inj hc ▸ hh)
    · split
      · match b.values with
        | [] => simp
        | b0 :: bs =>
          simp only []
          split
          · simp
          · cases hh : cmpVSGo cmp b0 a.nsamples a.values a.pass_samples with
            | ok p => obtain ⟨m, hv, ps⟩ := p; simp only [hh]; split <;> simp
            | error e =>
                simp only [hh]
                exact fun hc => cmpVSGo_not_fatal cmp b0 _ _ _ (Except.error.inj hc ▸ hh)
      · split
        · match a.values with
          | [] => simp
          | a0 :: as =>
            simp only []
            split
            · simp
            · cases hh : cmpSVGo cmp a0 b.nsamples b.values a.pass_samples with
              | ok p => obtain ⟨m, hv, ps⟩ := p; simp only [hh]; split <;> simp
              | error e =>
                simp only [hh]
                exact fun hc => cmpSVGo_not_fatal cmp a0 _ _ _ (Except.error.inj hc ▸ hh)
        · match a.values, b.values with
          | [], _ => simp
          | a0 :: as, [] => simp
          | a0 :: as, b0 :: bs =>
            simp only []
            split <;> simp

theorem cmp_vector_strings_mismatch_fatal (a b : Token) (logic : Nat)
    (ha : a.nvalues ≠ 0) (hb : b.nvalues ≠ 0) (hne : a.nvalues ≠ b.nvalues)
    (hsa : a.nsamples ≠ 0) (hsb : b.nsamples ≠ 0) :
    cmp_vector_strings a b logic = Except.error EvalErr.fatal := by
  unfold cmp_vector_strings
  rw [if_neg ha, if_neg hb, if_neg hne, if_neg (by simp [hsa, hsb])]

/-- C10 amended: comparing two per-sample string vectors of differing
    (nonzero) lengths is the fatal "Cannot compare vectors of different
    length" abort; the numeric comparison kernel performs no such
    check and never signals that fatal error — differing lengths there
    read past the shorter vector instead. -/
theorem length_mismatch_string_fatal_numeric_unchecked :
    (∀ (a b : Token) (logic : Nat),
       a.nvalues ≠ 0 → b.nvalues ≠ 0 → a.nvalues ≠ b.nvalues →
       a.nsamples ≠ 0 → b.nsamples ≠ 0 →
       cmp_vector_strings a b logic = Except.error EvalErr.fatal) ∧
    (∀ (cmp : FV → FV → Bool) (a b : Token),
       cmpVectors cmp a b ≠ Except.error EvalErr.fatal) :=
  ⟨fun a b logic ha hb hne hsa hsb =>
     cmp_vector_strings_mismatch_fatal a b logic ha hb hne hsa hsb,
   fun cmp a b => cmpVectors_never_fatal cmp a b⟩

/-- Witness for C10 amended: a 3-sample and a 2-sample string vector
    hit the fatal abort; the same shape through the numeric kernel does
    not produce the fatal error. -/
theorem length_mismatch_witness :
    cmp_vector_strings tokStr3 tokStr2 TOK_EQ = Except.error EvalErr.fatal ∧
    cmpVectors fcmpLE tokVec3 tokVec2 ≠ Except.error EvalErr.fatal :=
  ⟨length_mismatch_string_fatal_numeric_unchecked.1 tokStr3 tokStr2 TOK_EQ (by decide)
     (by decide) (by decide) (by decide) (by decide),
   length_mismatch_string_fatal_numeric_unchecked.2 fcmpLE tokVec3 tokVec2⟩

/-- C3 counterexample: the expression "1" compiles successfully, and
    evaluating it returns the tri-state -1 (no boolean operator ever
    assigned the site bit), which is neither 0 nor a value > 0. -/
theorem bare_value_program_returns_tri_state :
    filter_init hdrDPinfo "1" = Except.ok cfOne ∧
    filter_test cfOne recEmpty = Except.ok { site := -1, mask := none } ∧
    ¬ ((-1 : Int) = 0 ∨ 0 < (-1 : Int)) := by
  refine ⟨by with_unfolding_all rfl, by with_unfolding_all rfl, by decide⟩

theorem b2i_01 (x : Bool) : b2i x = 0 ∨ b2i x = 1 := by
  cases x <;> simp [b2i]

theorem applySetter_pass_site (s : Setter) (rec : BcfRec) (t : Token) :
    (applySetter s rec t).pass_site = t.pass_site := by
  cases s <;>
    simp only [applySetter, filters_set_qual, filters_set_type, filters_set_info,
      filters_set_info_int, filters_set_info_float, filters_set_info_flag,
      filters_set_format_int, filters_set_format_float, filters_set_format_string,
      set_max, set_min, set_avg] <;>
    (repeat' split) <;> rfl

theorem filters_cmp_filter_01 (id : Int) (flt : List Int) (op : Nat) :
    filters_cmp_filter id flt op = 0 ∨ filters_cmp_filter id flt op = 1 := by
  unfold filters_cmp_filter
  repeat' split
  all_goals simp

theorem vector_logic_or_snd (a b : Token) (ty : Nat) :
    (vector_logic_or a b ty).2 = a.pass_site ∨ (vector_logic_or a b ty).2 = b.pass_site ∨
    (vector_logic_or a b ty).2 = 0 ∨ (vector_logic_or a b ty).2 = 1 := by
  unfold vector_logic_or
  repeat' split
  all_goals
    first
    | (right; right; left; rfl)
    | (right; left; rfl)
    | (left; rfl)
    | (right; right; exact b2i_01 _)

theorem vector_logic_and_snd (a b : Token) :
    (vector_logic_and a b).2 = 0 ∨ (vector_logic_and a b).2 = 1 := by
  unfold vector_logic_and
  repeat' split
  all_goals
    first
    | (left; rfl)
    | (exact b2i_01 _)

theorem vectorArith_pass_site (aop : FV → FV → FV) (a b t : Token)
    (h : vectorArith aop a b = Except.ok t) : t.pass_site = a.pass_site := by
  unfold vectorArith at h
  repeat' split at h
  all_goals first
    | (injection h with h2; subst h2; rfl)
    | (injection h)

theorem ps3_cons {x : Token} {rest : List Token}
    (hx : PS3 x) (hrest : ∀ y ∈ rest, PS3 y) : ∀ y ∈ x :: rest, PS3 y := by
  intro y hy
  rcases List.mem_cons.mp hy with rfl | hy'
  · exact hx
  · exact hrest y hy'

set_option maxHeartbeats 1000000 in
theorem evalCompare_ps3 (rec : BcfRec) (ty : Nat) (btok atok : Token)
    (rest st' : List Token) (h : evalCompare rec ty btok atok rest = Except.ok st')
    (hPr : ∀ y ∈ rest, PS3 y) : ∀ x ∈ st', PS3 x := by
  unfold evalCompare at h
  repeat' split at h
  all_goals first
    | (injection h; done)
    | (injection h with h2; subst h2;
       refine ps3_cons ?_ hPr;
       unfold PS3;
       first
         | (exact Or.inr (Or.inl rfl))
         | (rcases filters_cmp_filter_01 btok.hdr_id rec.flt TOK_EQ with hs | hs <;>
              rw [hs] <;> simp)
         | (rcases filters_cmp_filter_01 atok.hdr_id rec.flt TOK_EQ with hs | hs <;>
              rw [hs] <;> simp)
         | (rcases filters_cmp_filter_01 btok.hdr_id rec.flt TOK_NE with hs | hs <;>
              rw [hs] <;> simp)
         | (rcases filters_cmp_filter_01 atok.hdr_id rec.flt TOK_NE with hs | hs <;>
              rw [hs] <;> simp)
         | (right; exact b2i_01 _))

theorem evalBinary_ps3 (rec : BcfRec) (ty : Nat) (btok atok : Token)
    (rest st' : List Token) (h : evalBinary rec ty btok atok rest = Except.ok st')
    (hPa : PS3 atok) (hPb : PS3 btok) (hPr : ∀ y ∈ rest, PS3 y) :
    ∀ x ∈ st', PS3 x := by
  unfold evalBinary at h
  split at h
  · -- OR flavors
    split at h
    · injection h
    · injection h with h2
      subst h2
      refine ps3_cons ?_ hPr
      unfold PS3
      rcases vector_logic_or_snd atok btok ty with hs | hs | hs | hs <;> rw [hs]
      · exact hPa
      · exact hPb
      · exact Or.inr (Or.inl rfl)
      · exact Or.inr (Or.inr rfl)
  · split at h
    · -- AND flavors
      split at h
      · injection h
      · injection h with h2
        subst h2
        refine ps3_cons ?_ hPr
        unfold PS3
        rcases vector_logic_and_snd atok btok with hs | hs <;> rw [hs]
        · exact Or.inr (Or.inl rfl)
        · exact Or.inr (Or.inr rfl)
    · split at h
      · -- TOK_ADD
        split at h
        · rename_i a2 heq
          injection h with h2
          subst h2
          refine ps3_cons ?_ hPr
          unfold PS3
          rw [vectorArith_pass_site _ _ _ _ heq]
          exact hPa
        · injection h
      · split at h
        · -- TOK_SUB
          split at h
          · rename_i a2 heq
            injection h with h2
            subst h2
            refine ps3_cons ?_ hPr
            unfold PS3
            rw [vectorArith_pass_site _ _ _ _ heq]
            exact hPa
          · injection h
        · split at h
          · -- TOK_MULT
            split at h
            · rename_i a2 heq
              injection h with h2
              subst h2
              refine ps3_cons ?_ hPr
              unfold PS3
              rw [vectorArith_pass_site _ _ _ _ heq]
              exact hPa
            · injection h
          · split at h
            · -- TOK_DIV
              split at h
              · rename_i a2 heq
                injection h with h2
                subst h2
                refine ps3_cons ?_ hPr
                unfold PS3
                rw [vectorArith_pass_site _ _ _ _ heq]
                exact hPa
              · injection h
            · exact evalCompare_ps3 rec ty btok atok rest st' h hPr

theorem evalStep_ps3 (rec : BcfRec) (t : Token) (st st' : List Token)
    (h : evalStep rec t st = Except.ok st') (hP : ∀ x ∈ st, PS3 x) :
    ∀ x ∈ st', PS3 x := by
  unfold evalStep at h
  simp only [] at h
  split at h
  · -- TOK_VAL
    split at h
    · injection h with h2
      subst h2
      refine ps3_cons ?_ hP
      unfold PS3
      left
      rw [applySetter_pass_site]
      rfl
    · split at h
      · injection h with h2
        subst h2
        exact ps3_cons (Or.inl rfl) hP
      · injection h with h2
        subst h2
        exact ps3_cons (Or.inl rfl) hP
  · by_cases hfun : (resetTok t).tok_type = TOK_FUNC
    · -- TOK_FUNC
      rw [if_pos hfun] at h
      cases st with
      | nil => injection h
      | cons top rest =>
        cases hset : (resetTok t).setter with
        | none =>
            rw [hset] at h
            injection h
        | some s =>
            rw [hset] at h
            injection h with h2
            subst h2
            refine ps3_cons ?_ (fun y hy => hP y (List.mem_cons_of_mem _ hy))
            unfold PS3
            rw [applySetter_pass_site]
            exact hP top (List.mem_cons_self _ _)
    · -- binary operators
      rw [if_neg hfun] at h
      cases st with
      | nil => injection h
      | cons btok st1 =>
        cases st1 with
        | nil => injection h
        | cons atok rest =>
          exact evalBinary_ps3 rec (resetTok t).tok_type btok atok rest st' h
            (hP atok (List.mem_cons_of_mem _ (List.mem_cons_self _ _)))
            (hP btok (List.mem_cons_self _ _))
            (fun y hy => hP y (List.mem_cons_of_mem _ (List.mem_cons_of_mem _ hy)))

theorem evalProg_ps3 (rec : BcfRec) :
    ∀ (prog st st' : List Token), evalProg rec prog st = Except.ok st' →
      (∀ x ∈ st, PS3 x) → ∀ x ∈ st', PS3 x := by
  intro prog
  induction prog with
  | nil =>
    intro st st' h hP
    unfold evalProg at h
    injection h with h2
    subst h2
    exact hP
  | cons t ts ih =>
    intro st st' h hP
    unfold evalProg at h
    cases hh : evalStep rec t st with
    | ok st1 =>
        rw [hh] at h
        exact ih st1 st' h (evalStep_ps3 rec t st st1 hh hP)
    | error e =>
        rw [hh] at h
        injection h

/-- C3 amended: whenever `filter_test` returns a result, the site
    value is -1, 0 or 1 — never any other value; but -1 (the tri-state
    "not applicable", returned for programs whose top token never
    receives a site assignment, such as a bare value) is a possible
    return value alongside 0 and 1. -/
theorem filter_test_tri_state (f : CompiledFilter) (rec : BcfRec) (r : FilterRes)
    (h : filter_test f rec = Except.ok r) :
    r.site = -1 ∨ r.site = 0 ∨ r.site = 1 := by
  unfold filter_test at h
  split at h
  · injection h
  · rename_i st heq
    have hst : ∀ x ∈ st, PS3 x :=
      evalProg_ps3 rec f.prog [] st heq (by intro x hx; cases hx)
    split at h
    · injection h
    · split at h
      · injection h
      · rename_i top tail heq2
        injection h with h2
        subst h2
        have hps := hst top (List.mem_cons_self _ _)
        unfold PS3 at hps
        exact hps

/-- Witness for C3 amended: the compiled `%QUAL>10 | FMT/GQ>10`
    program on the (qual 5, GQ [15,8]) record returns site 1, which is
    in the tri-state set. -/
theorem filter_test_tri_state_witness :
    (1 : Int) = -1 ∨ (1 : Int) = 0 ∨ (1 : Int) = 1 :=
  filter_test_tri_state cfOrGQ recGQ5 { site := 1, mask := some [1, 0] }
    (by with_unfolding_all rfl)

theorem tok_cons_pred (P : Token → Prop) {x : Token} {rest : List Token}
    (hx : P x) (hr : ∀ y ∈ rest, P y) : ∀ y ∈ x :: rest, P y := by
  intro y hy
  rcases List.mem_cons.mp hy with rfl | hy'
  · exact hx
  · exact hr y hy'

theorem vector_logic_or_missing (a b : Token) (ty : Nat)
    (ha : a.nvalues = 0) (hb : b.nvalues = 0) :
    vector_logic_or a b ty = ({ a with nvalues := 0, nsamples := 0 }, 0) := by
  unfold vector_logic_or
  rw [if_pos ⟨ha, hb⟩]

theorem vector_logic_and_missing (a b : Token)
    (h : a.nvalues = 0 ∨ b.nvalues = 0) :
    vector_logic_and a b = ({ a with nvalues := 0, nsamples := 0 }, 0) := by
  unfold vector_logic_and
  rw [if_pos h]

theorem vectorArith_missing (aop : FV → FV → FV) (a b : Token)
    (h : a.nvalues = 0 ∨ b.nvalues = 0) :
    vectorArith aop a b = Except.ok { a with nvalues := 0, nsamples := 0 } := by
  unfold vectorArith
  rw [if_pos h]

theorem evalCompare_missing (rec : BcfRec) (ty : Nat) (btok atok : Token)
    (rest : List Token) (h : btok.nvalues = 0 ∨ atok.nvalues = 0) :
    evalCompare rec ty btok atok rest =
      Except.ok ({ atok with nvalues := 0, nsamples := 0, pass_site := 0 } :: rest) := by
  unfold evalCompare
  simp only []
  rw [if_pos h]

theorem evalBinary_misstok (rec : BcfRec) (ty : Nat) (btok atok : Token)
    (rest st' : List Token) (h : evalBinary rec ty btok atok rest = Except.ok st')
    (hPa : MissTok atok) (hPb : MissTok btok) (hPr : ∀ y ∈ rest, MissTok y) :
    ∀ x ∈ st', MissTok x := by
  obtain ⟨hanv, hans, haps⟩ := hPa
  obtain ⟨hbnv, hbns, hbps⟩ := hPb
  unfold evalBinary at h
  split at h
  · -- OR flavors: both operands missing collapse to the 0-result
    split at h
    · injection h
    · injection h with h2
      subst h2
      refine tok_cons_pred MissTok ?_ hPr
      rw [vector_logic_or_missing atok btok ty hanv hbnv]
      exact ⟨rfl, rfl, Or.inr rfl⟩
  · split at h
    · -- AND flavors
      split at h
      · injection h
      · injection h with h2
        subst h2
        refine tok_cons_pred MissTok ?_ hPr
        rw [vector_logic_and_missing atok btok (Or.inl hanv)]
        exact ⟨rfl, rfl, Or.inr rfl⟩
    · split at h
      · -- TOK_ADD
        rw [vectorArith_missing fadd atok btok (Or.inl hanv)] at h
        injection h with h2
        subst h2
        exact tok_cons_pred MissTok ⟨rfl, rfl, haps⟩ hPr
      · split at h
        · rw [vectorArith_missing fsub atok btok (Or.inl hanv)] at h
          injection h with h2
          subst h2
          exact tok_cons_pred MissTok ⟨rfl, rfl, haps⟩ hPr
        · split at h
          · rw [vectorArith_missing fmul atok btok (Or.inl hanv)] at h
            injection h with h2
            subst h2
            exact tok_cons_pred MissTok ⟨rfl, rfl, haps⟩ hPr
          · split at h
            · rw [vectorArith_missing fdiv atok btok (Or.inl hanv)] at h
              injection h with h2
              subst h2
              exact tok_cons_pred MissTok ⟨rfl, rfl, haps⟩ hPr
            · rw [evalCompare_missing rec ty btok atok rest (Or.inl hbnv)] at h
              injection h with h2
              subst h2
              exact tok_cons_pred MissTok ⟨rfl, rfl, Or.inr rfl⟩ hPr

theorem evalStep_misstok (rec : BcfRec) (t : Token) (st st' : List Token)
    (hval : t.tok_type = TOK_VAL →
       t.setter.isSome = true ∧ ∀ s, t.setter = some s →
         (applySetter s rec (resetTok t)).nvalues = 0 ∧
         (applySetter s rec (resetTok t)).nsamples = 0)
    (hfun : t.tok_type ≠ TOK_FUNC)
    (h : evalStep rec t st = Except.ok st')
    (hP : ∀ x ∈ st, MissTok x) : ∀ x ∈ st', MissTok x := by
  unfold evalStep at h
  simp only [] at h
  split at h
  · -- TOK_VAL
    rename_i hty
    obtain ⟨hsome, hszero⟩ := hval hty
    split at h
    · rename_i s hset
      injection h with h2
      subst h2
      obtain ⟨hnv, hns⟩ := hszero s hset
      refine tok_cons_pred MissTok ⟨hnv, hns, Or.inl ?_⟩ hP
      rw [applySetter_pass_site]
      rfl
    · rename_i hset
      have hnone : t.setter = none := hset
      rw [hnone] at hsome
      simp at hsome
  · by_cases hfun2 : (resetTok t).tok_type = TOK_FUNC
    · exact absurd hfun2 hfun
    · rw [if_neg hfun2] at h
      cases st with
      | nil => injection h
      | cons btok st1 =>
        cases st1 with
        | nil => injection h
        | cons atok rest =>
          exact evalBinary_misstok rec (resetTok t).tok_type btok atok rest st' h
            (hP atok (List.mem_cons_of_mem _ (List.mem_cons_self _ _)))
            (hP btok (List.mem_cons_self _ _))
            (fun y hy => hP y (List.mem_cons_of_mem _ (List.mem_cons_of_mem _ hy)))

theorem evalProg_misstok (rec : BcfRec) :
    ∀ (prog st st' : List Token),
      (∀ t ∈ prog, t.tok_type = TOK_VAL →
         t.setter.isSome = true ∧ ∀ s, t.setter = some s →
           (applySetter s rec (resetTok t)).nvalues = 0 ∧
           (applySetter s rec (resetTok t)).nsamples = 0) →
      (∀ t ∈ prog, t.tok_type ≠ TOK_FUNC) →
      evalProg rec prog st = Except.ok st' →
      (∀ x ∈ st, MissTok x) → ∀ x ∈ st', MissTok x := by
  intro prog
  induction prog with
  | nil =>
    intro st st' _ _ h hP
    unfold evalProg at h
    injection h with h2
    subst h2
    exact hP
  | cons t ts ih =>
    intro st st' hval hfun h hP
    unfold evalProg at h
    cases hh : evalStep rec t st with
    | ok st1 =>
        rw [hh] at h
        exact ih st1 st' (fun u hu => hval u (List.mem_cons_of_mem _ hu))
          (fun u hu => hfun u (List.mem_cons_of_mem _ hu)) h
          (evalStep_misstok rec t st st1 (hval t (List.mem_cons_self _ _))
            (hfun t (List.mem_cons_self _ _)) hh hP)
    | error e =>
        rw [hh] at h
        injection h

/-- C4 counterexample: in `10>5 | DP>3` the only referenced field is
    DP, absent from the record, yet the site result is 1, because a
    missing OR operand yields the other side (here the constant
    comparison 10>5). -/
theorem missing_field_can_still_pass :
    filter_init hdrDPinfo "10>5 | DP>3" = Except.ok cfOrMissing ∧
    filter_test cfOrMissing recEmpty = Except.ok { site := 1, mask := none } ∧
    (1 : Int) ≠ 0 := by
  refine ⟨by with_unfolding_all rfl, by with_unfolding_all rfl, by decide⟩

/-- C4 amended: when every value token of the program is a bound field
    whose setter yields no values on the record (and the program has no
    function tokens, whose %MAX/%MIN collapse missing input to an
    infinity), a completed evaluation never passes: the site result is
    0, or -1 when no boolean operator ran; and when it is 0 the
    published per-sample mask, if any, is all zeros. -/
theorem filter_test_all_missing (f : CompiledFilter) (rec : BcfRec) (r : FilterRes)
    (hval : ∀ t ∈ f.prog, t.tok_type = TOK_VAL →
       t.setter.isSome = true ∧ ∀ s, t.setter = some s →
         (applySetter s rec (resetTok t)).nvalues = 0 ∧
         (applySetter s rec (resetTok t)).nsamples = 0)
    (hfun : ∀ t ∈ f.prog, t.tok_type ≠ TOK_FUNC)
    (h : filter_test f rec = Except.ok r) :
    (r.site = 0 ∨ r.site = -1) ∧
    (r.site = 0 → r.mask = none ∨ r.mask = some (List.replicate f.nsamples 0)) := by
  unfold filter_test at h
  split at h
  · injection h
  · rename_i st heq
    have hst : ∀ x ∈ st, MissTok x :=
      evalProg_misstok rec f.prog [] st hval hfun heq (by intro x hx; cases hx)
    split at h
    · injection h
    · split at h
      · injection h
      · rename_i top tail heq2
        injection h with h2
        subst h2
        obtain ⟨hnv, hns, hps⟩ := hst top (List.mem_cons_self _ _)
        constructor
        · rcases hps with hp | hp
          · exact Or.inr hp
          · exact Or.inl hp
        · intro h0
          have hps0 : top.pass_site = 0 := h0
          by_cases hc : f.max_unpack &&& BCF_UN_FMT ≠ 0 ∧ f.nsamples ≠ 0
          · right
            show (if f.max_unpack &&& BCF_UN_FMT ≠ 0 ∧ f.nsamples ≠ 0 then
                    some (if top.nsamples = 0 then
                            List.replicate f.nsamples (byteOfInt top.pass_site)
                          else top.pass_samples)
                  else none) = some (List.replicate f.nsamples 0)
            rw [if_pos hc, if_pos hns, hps0]
            rfl
          · left
            show (if f.max_unpack &&& BCF_UN_FMT ≠ 0 ∧ f.nsamples ≠ 0 then
                    some (if top.nsamples = 0 then
                            List.replicate f.nsamples (byteOfInt top.pass_site)
                          else top.pass_samples)
                  else none) = none
            rw [if_neg hc]

/-- Witness for C4 amended: `DP=DP` (both value tokens bound to the
    absent INFO field DP) on the empty record evaluates to site 0. -/
theorem filter_test_all_missing_witness :
    ((0 : Int) = 0 ∨ (0 : Int) = -1) ∧
    ((0 : Int) = 0 → (none : Option (List Nat)) = none ∨
       (none : Option (List Nat)) = some (List.replicate cfDPeqDP.nsamples 0)) := by
  refine filter_test_all_missing cfDPeqDP recEmpty { site := 0, mask := none } ?_ ?_
    (by with_unfolding_all rfl)
  · intro t ht hty
    have hprog : cfDPeqDP.prog =
        [{ tok_type := TOK_VAL, hdr_id := 0, pass_site := -1, tag := some "DP",
           setter := some Setter.info, values := [FV.num 0] },
         { tok_type := TOK_VAL, hdr_id := 0, pass_site := -1, tag := some "DP",
           setter := some Setter.info, values := [FV.num 0] },
         { tok_type := TOK_EQ, values := [FV.num 0] }] := by with_unfolding_all rfl
    rw [hprog] at ht
    rcases List.mem_cons.mp ht with rfl | ht1
    · refine ⟨rfl, ?_⟩
      intro s hs
      injection hs with hs2
      subst hs2
      exact ⟨rfl, rfl⟩
    rcases List.mem_cons.mp ht1 with rfl | ht2
    · refine ⟨rfl, ?_⟩
      intro s hs
      injection hs with hs2
      subst hs2
      exact ⟨rfl, rfl⟩
    rcases List.mem_cons.mp ht2 with rfl | ht3
    · exact absurd hty (by decide)
    · cases ht3
  · intro t ht
    have hprog : cfDPeqDP.prog =
        [{ tok_type := TOK_VAL, hdr_id := 0, pass_site := -1, tag := some "DP",
           setter := some Setter.info, values := [FV.num 0] },
         { tok_type := TOK_VAL, hdr_id := 0, pass_site := -1, tag := some "DP",
           setter := some Setter.info, values := [FV.num 0] },
         { tok_type := TOK_EQ, values := [FV.num 0] }] := by with_unfolding_all rfl
    rw [hprog] at ht
    rcases List.mem_cons.mp ht with rfl | ht1
    · decide
    rcases List.mem_cons.mp ht1 with rfl | ht2
    · decide
    rcases List.mem_cons.mp ht2 with rfl | ht3
    · decide
    · cases ht3

theorem evalBinary_and_vec (rec : BcfRec) (btok atok : Token) (rest : List Token) :
    evalBinary rec TOK_AND_VEC btok atok rest = evalBinary rec TOK_AND btok atok rest := by
  rfl

theorem evalStep_swapAnd (rec : BcfRec) (t : Token) (st : List Token) :
    evalStep rec (swapAndFlavor t) st = evalStep rec t st := by
  unfold swapAndFlavor
  split
  · rename_i hty
    unfold evalStep
    simp only [resetTok, hty]
    norm_num [TOK_VAL, TOK_FUNC, TOK_AND, TOK_AND_VEC]
    cases st with
    | nil => rfl
    | cons b s1 =>
      cases s1 with
      | nil => rfl
      | cons a r => exact (evalBinary_and_vec rec b a r).symm
  · rfl

theorem evalProg_swapAnd (rec : BcfRec) :
    ∀ (prog st : List Token),
      evalProg rec (prog.map swapAndFlavor) st = evalProg rec prog st := by
  intro prog
  induction prog with
  | nil => intro st; rfl
  | cons t ts ih =>
    intro st
    simp only [List.map_cons]
    unfold evalProg
    rw [evalStep_swapAnd]
    cases evalStep rec t st with
    | ok st1 => exact ih st1
    | error e => rfl

theorem filter_test_swapAnd (f : CompiledFilter) (rec : BcfRec) :
    filter_test { f with prog := f.prog.map swapAndFlavor } rec = filter_test f rec := by
  unfold filter_test
  rw [show ({ f with prog := f.prog.map swapAndFlavor } : CompiledFilter).prog =
        f.prog.map swapAndFlavor from rfl,
      evalProg_swapAnd]

/-- C8 counterexample: there is no program and record on which the two
    AND flavors differ — `filter_test` dispatches `&` and `&&` to the
    same flavor-blind `vector_logic_and`, so replacing every `&&` token
    by `&` never changes the result. -/
theorem no_and_flavor_distinction :
    ¬ ∃ (f : CompiledFilter) (rec : BcfRec),
        filter_test { f with prog := f.prog.map swapAndFlavor } rec ≠ filter_test f rec :=
  fun h => h.elim (fun f hf => hf.elim (fun rec hne => hne (filter_test_swapAnd f rec)))

/-- C8 amended: the AND flavors are *not* semantically distinct: the
    evaluator treats TOK_AND and TOK_AND_VEC identically (both call
    `vector_logic_and`, which takes no flavor argument), so evaluating
    a program with every `&&` replaced by `&` yields the same site bit
    and the same mask on every record. -/
theorem and_flavors_evaluate_identically (f : CompiledFilter) (rec : BcfRec) :
    filter_test { f with prog := f.prog.map swapAndFlavor } rec = filter_test f rec :=
  filter_test_swapAnd f rec

theorem maskGetD_build (f : Nat → Nat) (tail : List Nat) (n i : Nat) (h : i < n) :
    maskGetD ((List.range n).map f ++ tail) i = f i := by
  unfold maskGetD
  rw [List.getD_append _ _ _ _ (by simpa using h)]
  rw [List.getD_eq_getElem?_getD, List.getElem?_map, List.getElem?_range h]
  rfl

theorem b2i_eq_one (x : Bool) : b2i x = 1 ↔ x = true := by
  cases x <;> simp [b2i]

theorem range_any_iff (n : Nat) (p : Nat → Bool) :
    ((List.range n).any p = true) ↔ ∃ i, i < n ∧ p i = true := by
  simp [List.any_eq_true, List.mem_range]

/-- C1: over a non-missing site-level operand and a non-missing
    per-sample operand, the `||` operator (TOK_OR_VEC) always
    broadcasts the site bit into each slot of the resulting mask, in
    both operand orders; the `|` operator (TOK_OR) leaves the vector
    operand's mask unchanged and raises the site bit exactly when the
    broadcast would make some slot pass.  In particular,
    `%QUAL>10 | FMT/GQ>10` at qual 5, GQ [15,8] gives site 1 and mask
    [1,0], while `%QUAL>10 || FMT/GQ>10` at qual 20 gives mask [1,1]. -/
theorem or_flavor_semantics :
    (∀ (a b : Token) (i : Nat), a.nvalues ≠ 0 → b.nvalues ≠ 0 →
       a.nsamples = 0 → b.nsamples ≠ 0 → i < b.nsamples →
       maskGetD (vector_logic_or a b TOK_OR_VEC).1.pass_samples i =
         b2n (nz a.pass_site || nzN (maskGetD b.pass_samples i))) ∧
    (∀ (a b : Token) (i : Nat), a.nvalues ≠ 0 → b.nvalues ≠ 0 →
       a.nsamples = 0 → b.nsamples ≠ 0 → i < b.nsamples →
       maskGetD (vector_logic_or a b TOK_OR).1.pass_samples i =
         maskGetD b.pass_samples i) ∧
    (∀ (a b : Token), a.nvalues ≠ 0 → b.nvalues ≠ 0 →
       a.nsamples = 0 → b.nsamples ≠ 0 →
       ((vector_logic_or a b TOK_OR).2 = 1 ↔
         ∃ i, i < b.nsamples ∧
           (nz a.pass_site || nzN (maskGetD b.pass_samples i)) = true)) ∧
    (∀ (a b : Token), a.nvalues ≠ 0 → b.nvalues ≠ 0 →
       a.nsamples ≠ 0 → b.nsamples = 0 →
       (vector_logic_or a b TOK_OR).1.pass_samples = a.pass_samples ∧
       ((vector_logic_or a b TOK_OR).2 = 1 ↔
         ∃ i, i < a.nsamples ∧
           (nz b.pass_site || nzN (maskGetD a.pass_samples i)) = true)) ∧
    (∀ (a b : Token) (i : Nat), a.nvalues ≠ 0 → b.nvalues ≠ 0 →
       a.nsamples ≠ 0 → b.nsamples = 0 → i < a.nsamples →
       maskGetD (vector_logic_or a b TOK_OR_VEC).1.pass_samples i =
         b2n (nzN (maskGetD a.pass_samples i) || nz b.pass_site)) ∧
    filter_init hdrGQ "%QUAL>10 | FMT/GQ>10" = Except.ok cfOrGQ ∧
    filter_test cfOrGQ recGQ5 = Except.ok { site := 1, mask := some [1, 0] } ∧
    filter_init hdrGQ "%QUAL>10 || FMT/GQ>10" = Except.ok cfOrVecGQ ∧
    filter_test cfOrVecGQ recGQ20 = Except.ok { site := 1, mask := some [1, 1] } := by
  refine ⟨?_, ?_, ?_, ?_, ?_, by with_unfolding_all rfl, by with_unfolding_all rfl,
    by with_unfolding_all rfl, by with_unfolding_all rfl⟩
  · intro a b i ha hb hsa hsb hi
    unfold vector_logic_or
    rw [if_neg (fun hc => ha hc.1), if_neg ha, if_neg hb, if_neg (fun hc => hsb hc.2),
        if_pos hsa, if_neg (by decide : ¬ (TOK_OR_VEC = TOK_OR))]
    simp only []
    exact maskGetD_build _ _ _ _ hi
  · intro a b i ha hb hsa hsb hi
    unfold vector_logic_or
    rw [if_neg (fun hc => ha hc.1), if_neg ha, if_neg hb, if_neg (fun hc => hsb hc.2),
        if_pos hsa, if_pos (rfl : TOK_OR = TOK_OR)]
    simp only []
    exact maskGetD_build _ _ _ _ hi
  · intro a b ha hb hsa hsb
    unfold vector_logic_or
    rw [if_neg (fun hc => ha hc.1), if_neg ha, if_neg hb, if_neg (fun hc => hsb hc.2),
        if_pos hsa, if_pos (rfl : TOK_OR = TOK_OR)]
    simp only []
    exact (b2i_eq_one _).trans (range_any_iff _ _)
  · intro a b ha hb hsa hsb
    unfold vector_logic_or
    rw [if_neg (fun hc => ha hc.1), if_neg ha, if_neg hb, if_neg (fun hc => hsa hc.1),
        if_neg hsa, if_pos hsb, if_pos (rfl : TOK_OR = TOK_OR)]
    simp only []
    exact ⟨by trivial, (b2i_eq_one _).trans (range_any_iff _ _)⟩
  · intro a b i ha hb hsa hsb hi
    unfold vector_logic_or
    rw [if_neg (fun hc => ha hc.1), if_neg ha, if_neg hb, if_neg (fun hc => hsa hc.1),
        if_neg hsa, if_pos hsb, if_neg (by decide : ¬ (TOK_OR_VEC = TOK_OR))]
    simp only []
    exact maskGetD_build _ _ _ _ hi

/-- Witness for C1: the (site, vector) parts applied at the concrete
    tokens (site bit 0, vector mask [1,0]): `||` broadcast gives slot 0
    value 1, `|` copies slot 1 unchanged as 0, and the `|` site bit is
    raised because slot 0 would pass. -/
theorem or_flavor_semantics_witness :
    maskGetD (vector_logic_or tokSite0 tokVecM10 TOK_OR_VEC).1.pass_samples 0 =
      b2n (nz tokSite0.pass_site || nzN (maskGetD tokVecM10.pass_samples 0)) ∧
    maskGetD (vector_logic_or tokSite0 tokVecM10 TOK_OR).1.pass_samples 1 =
      maskGetD tokVecM10.pass_samples 1 ∧
    ((vector_logic_or tokSite0 tokVecM10 TOK_OR).2 = 1 ↔
      ∃ i, i < tokVecM10.nsamples ∧
        (nz tokSite0.pass_site || nzN (maskGetD tokVecM10.pass_samples i)) = true) :=
  ⟨or_flavor_semantics.1 tokSite0 tokVecM10 0 (by decide) (by decide) (by decide)
     (by decide) (by decide),
   or_flavor_semantics.2.1 tokSite0 tokVecM10 1 (by decide) (by decide) (by decide)
     (by decide) (by decide),
   or_flavor_semantics.2.2.1 tokSite0 tokVecM10 (by decide) (by decide) (by decide)
     (by decide)⟩
